import Mathlib

/-!
Shallow embedding of the HASteward database-steward core, translated from the
Go sources: the restic group-aware retention engine (restic/restore.go), the
CNPG and Galera triage cross-instance comparisons (engine/cnpg/triage.go,
galera triage), the repair orchestration gates (engine/cnpg/repair.go, galera
repair), the streaming dump pipeline error combination (BackupDump +
k8s.ExecPipeOut), and the Galera heal/rescue sequence (healNode).

Go machine integers are modelled as Int with explicit wrap where overflow can
occur; Go maps are modelled as association lists with first-match lookup;
time.Time instants are modelled as UTC seconds (Int), and the Format keys used
by the retention engine are modelled as executable functions of that instant.
-/

namespace Hasteward

/-! ## Basic helpers: Go string/number parsing used by triage -/

/-- Value of a hexadecimal digit character, if it is one. -/
def hexDigit (c : Char) : Option Nat :=
  if c.isDigit then some (c.toNat - 48)
  else if 97 ≤ c.toNat ∧ c.toNat ≤ 102 then some (c.toNat - 87)
  else if 65 ≤ c.toNat ∧ c.toNat ≤ 70 then some (c.toNat - 55)
  else none

/-- Parse a base-16 natural from a list of characters (no sign, no prefix). -/
def parseHexNat : List Char → Option Nat
  | [] => none
  | cs => cs.foldl (fun acc c =>
      match acc, hexDigit c with
      | some n, some d => some (n * 16 + d)
      | _, _ => none) (some 0)

/-- Go strconv.ParseInt(s, 16, 64) on the strings the triage feeds it:
unsigned hex digits, erroring on empty input, invalid characters, or
overflow past int64 range. -/
def parseInt16 (s : String) : Option Int :=
  match parseHexNat s.toList with
  | none => none
  | some n => if n ≤ 2 ^ 63 - 1 then some (n : Int) else none

/-- Parse a base-10 natural from a list of characters. -/
def parseDecNat : List Char → Option Nat
  | [] => none
  | cs => cs.foldl (fun acc c =>
      if c.isDigit then
        match acc with
        | some n => some (n * 10 + (c.toNat - 48))
        | none => none
      else none) (some 0)

/-- Go strconv.ParseInt(s, 10, 64) on the strings the triage feeds it. -/
def parseInt10 (s : String) : Option Int :=
  match parseDecNat s.toList with
  | none => none
  | some n => if n ≤ 2 ^ 63 - 1 then some (n : Int) else none

/-- Two's-complement wrap of an Int into the int64 range, used where Go
arithmetic can overflow. -/
def wrap64 (x : Int) : Int := (x + 2 ^ 63) % 2 ^ 64 - 2 ^ 63

/-- Go strings.Split for a one-character separator (structural recursion on
the character list). -/
def splitOnChar (sep : Char) : List Char → List (List Char)
  | [] => [[]]
  | c :: rest =>
    let r := splitOnChar sep rest
    if c = sep then [] :: r
    else
      match r with
      | [] => [[c]]
      | h :: t => (c :: h) :: t

/-- ASCII whitespace, the space characters relevant to the trimmed values. -/
def isSpaceChar (c : Char) : Bool :=
  c = Char.ofNat 32 ∨ c = Char.ofNat 9 ∨ c = Char.ofNat 10 ∨ c = Char.ofNat 13

/-- Go strings.TrimSpace (restricted to ASCII whitespace, which is all that
occurs in the trimmed pg_controldata values). -/
def goTrim (s : String) : String :=
  ⟨((s.toList.dropWhile isSpaceChar).reverse.dropWhile isSpaceChar).reverse⟩

/-- parseLSNValue (engine/cnpg/triage.go): an LSN "hhhh/llll" in hex is
hi*2^32 + lo (int64 arithmetic); empty, "unknown", malformed or unparsable
input yields 0. -/
def parseLSNValue (lsn : String) : Int :=
  if lsn = "" ∨ lsn = "unknown" then 0
  else
    match splitOnChar (Char.ofNat 47) lsn.toList with
    | [hiS, loS] =>
      match parseInt16 ⟨hiS⟩, parseInt16 ⟨loS⟩ with
      | some hi, some lo => wrap64 (wrap64 (hi * 4294967296) + lo)
      | _, _ => 0
    | _ => 0

/-- parseTimelineInt (engine/cnpg/triage.go): trimmed decimal, with empty,
"unknown" or unparsable input yielding 0. -/
def parseTimelineInt (tl : String) : Int :=
  let t := goTrim tl
  if t = "" ∨ t = "unknown" then 0
  else
    match parseInt10 t with
    | some n => n
    | none => 0

/-! ## Retention engine (restic/restore.go) -/

/-- restic.Snapshot, with the time modelled as a UTC instant in seconds. -/
structure Snapshot where
  id : String
  shortID : String
  time : Int
  tags : List String
  paths : List String
  deriving Repr, DecidableEq

/-- Split one "K=V" tag at its first '=': Go strings.Index(t, "=") with the
index required to be positive (nonempty key). -/
def tagSplit (t : String) : Option (String × String) :=
  match t.toList.findIdx? (fun c => c = Char.ofNat 61) with
  | none => none
  | some 0 => none
  | some i => some (⟨t.toList.take i⟩, ⟨t.toList.drop (i + 1)⟩)

/-- Snapshot.TagMap lookup: Go builds a map from the tag list in order (later
entries overwrite) and indexes it; a missing key reads as "". -/
def tagMapGet (tags : List String) (key : String) : String :=
  tags.foldl (fun acc t =>
    match tagSplit t with
    | some (k, v) => if k = key then v else acc
    | none => acc) ""

/-- restic.JobGroup. -/
structure JobGroup where
  jobID : String
  time : Int
  snapshots : List Snapshot
  deriving Repr, DecidableEq

/-- The grouping key of GroupByJob: the "job" tag, or "ungrouped-" plus the
short id when the tag is empty/absent. -/
def jobKey (s : Snapshot) : String :=
  let j := tagMapGet s.tags "job"
  if j = "" then "ungrouped-" ++ s.shortID else j

/-- Insert a snapshot in the group keyed by k, appending to an existing
group (which keeps its first member's time) or creating a new one. -/
def groupInsert (gs : List JobGroup) (k : String) (s : Snapshot) : List JobGroup :=
  match gs with
  | [] => [⟨k, s.time, [s]⟩]
  | g :: rest =>
    if g.jobID = k then ⟨g.jobID, g.time, g.snapshots ++ [s]⟩ :: rest
    else g :: groupInsert rest k s

/-- The map-building loop of GroupByJob, with the association list keeping
keys in first-encounter order. -/
def groupByJobRaw (ss : List Snapshot) : List JobGroup :=
  ss.foldl (fun gs s => groupInsert gs (jobKey s) s) []

/-- Sort groups by time descending (Go sort.Slice with Time.After; the sort
is unstable in Go, so only the permutation and the ordering are meaningful). -/
def sortGroupsDesc (gs : List JobGroup) : List JobGroup :=
  gs.insertionSort (fun a b => a.time ≥ b.time)

/-- GroupByJob (restic/restore.go): group snapshots by job tag, newest first. -/
def GroupByJob (ss : List Snapshot) : List JobGroup :=
  sortGroupsDesc (groupByJobRaw ss)

/-- restic.RetentionPolicy (Go ints). -/
structure RetentionPolicy where
  keepLast : Int
  keepDaily : Int
  keepWeekly : Int
  keepMonthly : Int
  deriving Repr, DecidableEq

/-! ### Calendar keys for the Format strings used by ApplyGroupRetention

The Go code keys the daily/weekly/monthly walks on
Time.UTC().Format("2006-01-02"), ISOWeek() and Format("2006-01"); only
equality of the keys is used. Each key is modelled as an executable function
of the UTC instant whose equivalence classes are exactly the corresponding
calendar windows: the UTC calendar date is the epoch-day number, the ISO
year-week is the Monday-aligned week number (each ISO week is exactly one
Monday-to-Sunday interval), and the calendar month of an epoch day is the
signed count of first-of-month days between day 0 and it. -/

/-- UTC calendar date of an instant, as days since 1970-01-01 (floor; Int
division is Euclidean, which is the floor for the positive divisor). -/
def dayKey (t : Int) : Int := t / 86400

/-- ISO year-week of an instant, as Monday-aligned weeks since 1969-12-29
(epoch day 0 was a Thursday, so its week began on day -3). -/
def weekKey (t : Int) : Int := (dayKey t + 3) / 7

/-- Day of month (1..31) of an epoch day, by the standard civil-from-days
algorithm (all divisors positive, so Euclidean division is floor). -/
def civilDayOfMonth (d : Int) : Int :=
  let z := d + 719468
  let era := z / 146097
  let doe := z - era * 146097
  let yoe := (doe - doe / 1460 + doe / 36524 - doe / 146096) / 365
  let doy := doe - (365 * yoe + yoe / 4 - yoe / 100)
  let mp := (5 * doy + 2) / 153
  doy - (153 * mp + 2) / 5 + 1

/-- Whether an epoch day is the first day of a civil month. -/
def isMonthStart (d : Int) : Bool := civilDayOfMonth d = 1

/-- Number of month-start days in the interval (a, a+n]. -/
def monthStartsAfter (a : Int) (n : Nat) : Nat :=
  (List.range n).countP (fun i => isMonthStart (a + 1 + i))

/-- Calendar month of an instant, as months relative to the month containing
epoch day 0: the signed number of month boundaries crossed from day 0. -/
def monthKey (t : Int) : Int :=
  let d := dayKey t
  if 0 ≤ d then (monthStartsAfter 0 d.toNat : Int)
  else -(monthStartsAfter d (-d).toNat : Int)

/-! ### ApplyGroupRetention -/

/-- The keep-last loop of ApplyGroupRetention: walk groups with their index,
stop once the index reaches keepLast, and mark each group passed. -/
def keepLastLoop (n : Int) : List JobGroup → Int → List String
  | [], _ => []
  | g :: rest, i => if i ≥ n then [] else g.jobID :: keepLastLoop n rest (i + 1)

/-- The marks contributed by the keep-last dimension. -/
def keepLastMarks (n : Int) (groups : List JobGroup) : List String :=
  keepLastLoop n groups 0

/-- One daily/weekly/monthly walk of ApplyGroupRetention: track the last key
seen; on a new key bump the seen counter, stop once it exceeds the cap, and
otherwise mark the group. -/
def windowWalk (key : Int → Int) (cap : Int) :
    List JobGroup → Int → Option Int → List String
  | [], _, _ => []
  | g :: rest, seen, lastKey =>
    let k := key g.time
    if some k ≠ lastKey then
      if seen + 1 > cap then []
      else g.jobID :: windowWalk key cap rest (seen + 1) (some k)
    else windowWalk key cap rest seen lastKey

/-- The marks contributed by one keep-* window dimension. -/
def windowMarks (key : Int → Int) (cap : Int) (groups : List JobGroup) : List String :=
  windowWalk key cap groups 0 none

/-- The keep-set built by ApplyGroupRetention for a non-all-zero policy. -/
def keepSet (groups : List JobGroup) (p : RetentionPolicy) : List String :=
  (if p.keepLast > 0 then keepLastMarks p.keepLast groups else []) ++
  (if p.keepDaily > 0 then windowMarks dayKey p.keepDaily groups else []) ++
  (if p.keepWeekly > 0 then windowMarks weekKey p.keepWeekly groups else []) ++
  (if p.keepMonthly > 0 then windowMarks monthKey p.keepMonthly groups else [])

/-- ApplyGroupRetention (restic/restore.go): empty input passes through; an
all-zero policy keeps everything; otherwise partition groups by keep-set
membership of their job id. -/
def ApplyGroupRetention (groups : List JobGroup) (p : RetentionPolicy) :
    List JobGroup × List JobGroup :=
  if groups = [] then ([], [])
  else if p.keepLast = 0 ∧ p.keepDaily = 0 ∧ p.keepWeekly = 0 ∧ p.keepMonthly = 0 then
    (groups, [])
  else
    let ks := keepSet groups p
    (groups.filter (fun g => g.jobID ∈ ks),
     groups.filter (fun g => ¬ g.jobID ∈ ks))

/-! ## CNPG triage: cross-instance comparison (engine/cnpg/triage.go) -/

/-- controlData: per-instance pg_controldata fields (parsed to strings, with
"unknown" for missing lines) plus provenance and crash reason. -/
structure ControlData where
  pod : String
  source : String
  clusterState : String
  timeline : String
  checkpointLocation : String
  checkpointTime : String
  minRecoveryEnd : String
  crashReason : String
  deriving Repr, DecidableEq

/-- The slice of triageData consumed by the analysis functions. -/
structure PGTriageData where
  primaryControlData : Option ControlData
  primaryTimeline : String
  controlData : List ControlData
  missingInstances : List String
  crashloopPodNames : List String
  streamingReplicas : List String
  diskUsage : List (String × Int)
  pvcStates : List (String × String)
  deriving Repr, DecidableEq

/-- common.DataComparison. -/
structure DataComparison where
  mostAdvanced : String
  mostAdvancedValue : Int
  safeToHeal : Bool
  warnings : List String
  splitBrainDetails : List String
  checkpointLocation : String
  primaryMembers : List String
  bestPrimarySeqno : Int
  deriving Repr, DecidableEq

/-- Go map[string]int lookup: a missing key reads as 0. -/
def mapGetInt (m : List (String × Int)) (k : String) : Int :=
  match m.find? (fun kv => kv.1 = k) with
  | some kv => kv.2
  | none => 0

/-- Go map[string]string lookup: a missing key reads as "". -/
def mapGetStr (m : List (String × String)) (k : String) : String :=
  match m.find? (fun kv => kv.1 = k) with
  | some kv => kv.2
  | none => ""

/-- Running state of the comparison loop in crossInstanceComparison. -/
structure PGScanState where
  mostAdvanced : String
  mostAdvancedTL : Int
  mostAdvancedLSN : String
  splitBrain : List String
  deriving Repr, DecidableEq

/-- The instance loop of crossInstanceComparison: skip the primary and
unknown timelines; a timeline above the running maximum advances
mostAdvanced and flags split-brain; an instance at the running maximum with
both LSNs known and a larger LSN than the primary flags split-brain. -/
def pgScan (primaryName : String) (pTL : Int) (pLSN : String) :
    List ControlData → PGScanState → PGScanState
  | [], st => st
  | inst :: rest, st =>
    if inst.pod = primaryName ∨ inst.timeline = "unknown" then
      pgScan primaryName pTL pLSN rest st
    else
      let instTL := parseTimelineInt inst.timeline
      if instTL > st.mostAdvancedTL then
        pgScan primaryName pTL pLSN rest
          { mostAdvanced := inst.pod
            mostAdvancedTL := instTL
            mostAdvancedLSN := inst.checkpointLocation
            splitBrain := st.splitBrain ++
              [inst.pod ++ " has timeline " ++ inst.timeline ++
                " > primary timeline " ++ toString pTL] }
      else if instTL = st.mostAdvancedTL ∧ inst.checkpointLocation ≠ "unknown" ∧
          pLSN ≠ "unknown" then
        if parseLSNValue inst.checkpointLocation > parseLSNValue pLSN then
          pgScan primaryName pTL pLSN rest
            { st with splitBrain := st.splitBrain ++
                [inst.pod ++ " LSN " ++ inst.checkpointLocation ++
                  " ahead of primary " ++ pLSN ++ " on same timeline"] }
        else pgScan primaryName pTL pLSN rest st
      else pgScan primaryName pTL pLSN rest st

/-- The primary reference timeline used by crossInstanceComparison: 0 when
no primary control data was collected. -/
def pgPrimaryTL (data : PGTriageData) : Int :=
  match data.primaryControlData with
  | some _ => parseTimelineInt data.primaryTimeline
  | none => 0

/-- The primary reference LSN text: "unknown" when no primary control data. -/
def pgPrimaryLSN (data : PGTriageData) : String :=
  match data.primaryControlData with
  | some cd => cd.checkpointLocation
  | none => "unknown"

/-- crossInstanceComparison (engine/cnpg/triage.go). -/
def pgCross (data : PGTriageData) (primaryName : String) : DataComparison :=
  let pTL := pgPrimaryTL data
  let pLSN := pgPrimaryLSN data
  let st := pgScan primaryName pTL pLSN data.controlData ⟨primaryName, pTL, pLSN, []⟩
  let safe := st.splitBrain = []
  { mostAdvanced := st.mostAdvanced
    mostAdvancedValue := st.mostAdvancedTL
    checkpointLocation := st.mostAdvancedLSN
    safeToHeal := safe
    warnings :=
      if safe then
        ["OK: Primary " ++ primaryName ++ " has the most recent data (timeline " ++
          toString pTL ++ ", LSN " ++ pLSN ++ ")"]
      else st.splitBrain.map (fun sb => "SPLIT-BRAIN RISK: " ++ sb)
    splitBrainDetails := st.splitBrain
    primaryMembers := []
    bestPrimarySeqno := 0 }

/-- A non-primary instance that the Postgres code actually treats as ahead of
the primary: known timeline strictly above the primary reference, or at the
primary reference timeline with both LSN texts known and a strictly larger
parsed LSN. -/
def pgAhead (pTL : Int) (pLSN : String) (primaryName : String) (inst : ControlData) : Prop :=
  inst.pod ≠ primaryName ∧ inst.timeline ≠ "unknown" ∧
    (parseTimelineInt inst.timeline > pTL ∨
      (parseTimelineInt inst.timeline = pTL ∧ inst.checkpointLocation ≠ "unknown" ∧
        pLSN ≠ "unknown" ∧ parseLSNValue inst.checkpointLocation > parseLSNValue pLSN))

instance (pTL : Int) (pLSN : String) (primaryName : String) (inst : ControlData) :
    Decidable (pgAhead pTL pLSN primaryName inst) := by
  unfold pgAhead; infer_instance

/-! ## Galera triage: cross-instance comparison (galera triage source) -/

/-- Parsed grastate.dat fields for one node. -/
structure Grastate where
  pod : String
  source : String
  reachable : Bool
  uuid : String
  seqno : String
  safeToBootstrap : String
  deriving Repr, DecidableEq

/-- Parsed wsrep GLOBAL_STATUS variables for one node. -/
structure WsrepStatus where
  localState : Int
  localStateComment : String
  clusterStatus : String
  clusterSize : String
  connected : String
  ready : String
  clusterStateUUID : String
  lastCommitted : Int
  flowControlPaused : String
  deriving Repr, DecidableEq

/-- Best seqno from multiple sources for one node. -/
structure EffSeqno where
  value : Int
  source : String
  deriving Repr, DecidableEq

/-- The slice of galeraTriageData consumed by the comparison; Go maps are
association lists (unique keys, first-match lookup). -/
structure GaleraTriageData where
  grastateData : List Grastate
  wsrepList : List (String × WsrepStatus)
  effectiveSeqnos : List (String × EffSeqno)
  primaryMembers : List String
  bestSeqnoNode : String
  bestSeqnoValue : Int
  deriving Repr, DecidableEq

/-- The cluster UUID set collected by the Galera comparison: grastate UUIDs
that are known and non-zero, plus non-empty wsrep cluster-state UUIDs; as a
duplicate-free list (Go map used only for its size and key listing). -/
def galeraUUIDs (data : GaleraTriageData) : List String :=
  ((data.grastateData.filterMap (fun gs =>
      if gs.uuid ≠ "unknown" ∧ gs.uuid ≠ "00000000-0000-0000-0000-000000000000"
      then some gs.uuid else none)) ++
    (data.wsrepList.filterMap (fun nw =>
      if nw.2.clusterStateUUID ≠ "" then some nw.2.clusterStateUUID else none))).dedup

/-- Assoc-list lookup standing for a Go map read with ok-flag. -/
def assocFind {α : Type} (m : List (String × α)) (k : String) : Option α :=
  match m.find? (fun kv => kv.1 = k) with
  | some kv => some kv.2
  | none => none

/-- The best effective seqno among Primary-component members and the pod
carrying it; starts from -2 as in the source. -/
def bestPrimary (data : GaleraTriageData) : Int × String :=
  data.primaryMembers.foldl (fun best pm =>
    match assocFind data.effectiveSeqnos pm with
    | some es => if es.value > best.1 then (es.value, pm) else best
    | none => best) (-2, "")

/-- The UUID-divergence flag of the Galera comparison. -/
def uuidFlags (data : GaleraTriageData) : List String :=
  if (galeraUUIDs data).length > 1 then
    ["Multiple cluster UUIDs detected: " ++ String.intercalate ", " (galeraUUIDs data)]
  else []

/-- The non-Primary-component flags of the Galera comparison. -/
def statusFlags (data : GaleraTriageData) : List String :=
  data.wsrepList.filterMap (fun nw =>
    if nw.2.clusterStatus ≠ "" ∧ nw.2.clusterStatus ≠ "Primary" then
      some (nw.1 ++ " cluster_status=" ++ nw.2.clusterStatus)
    else none)

/-- The seqno-ahead flags of the Galera comparison (only checked when the
primary component is non-empty). -/
def seqnoFlags (data : GaleraTriageData) : List String :=
  if data.primaryMembers ≠ [] then
    data.effectiveSeqnos.filterMap (fun ne =>
      if ¬ ne.1 ∈ data.primaryMembers ∧ ne.2.value > (bestPrimary data).1 ∧ ne.2.value > 0 then
        some (ne.1 ++ " has seqno " ++ toString ne.2.value ++
          " > primary best " ++ toString (bestPrimary data).1 ++
          " (" ++ (bestPrimary data).2 ++ ")")
      else none)
  else []

/-- crossInstanceComparison (galera triage): split-brain flags from UUID
multiplicity, non-Primary cluster status, and non-member seqnos above the
primary component's best. -/
def galeraCross (data : GaleraTriageData) : DataComparison :=
  let bp := bestPrimary data
  let splitBrain := uuidFlags data ++ statusFlags data ++ seqnoFlags data
  let safe := splitBrain = []
  { mostAdvanced := data.bestSeqnoNode
    mostAdvancedValue := data.bestSeqnoValue
    safeToHeal := safe
    warnings :=
      if safe then
        if data.primaryMembers ≠ [] then
          ["OK: Primary component (" ++ String.intercalate ", " data.primaryMembers ++
            ") has the most recent data (best seqno: " ++ toString bp.1 ++ ")"]
        else
          ["WARNING: No nodes in Primary component. Most advanced: " ++
            data.bestSeqnoNode ++ " (seqno: " ++ toString data.bestSeqnoValue ++ ")"]
      else splitBrain.map (fun sb => "SPLIT-BRAIN RISK: " ++ sb)
    splitBrainDetails := splitBrain
    checkpointLocation := ""
    primaryMembers := data.primaryMembers
    bestPrimarySeqno := bp.1 }

/-- The unsafe condition exactly as the claim states it for Galera: some
non-primary-component node has effective seqno strictly greater than the
best seqno among Primary-component members, or more than one distinct
cluster UUID is observed. Stated from the claim's words, for comparison
with the code. -/
def claimGaleraUnsafe (data : GaleraTriageData) : Prop :=
  (∃ ne ∈ data.effectiveSeqnos,
    ¬ ne.1 ∈ data.primaryMembers ∧ ne.2.value > (bestPrimary data).1) ∨
  (galeraUUIDs data).length > 1

instance (data : GaleraTriageData) : Decidable (claimGaleraUnsafe data) := by
  unfold claimGaleraUnsafe; infer_instance

/-- The full unsafe condition the Galera code implements: additionally any
node reporting a non-empty wsrep cluster status other than "Primary" is a
flag, the seqno flag requires a positive seqno, and seqno flags are only
considered when the primary component is non-empty. -/
def galeraUnsafe (data : GaleraTriageData) : Prop :=
  (galeraUUIDs data).length > 1 ∨
  (∃ nw ∈ data.wsrepList, nw.2.clusterStatus ≠ "" ∧ nw.2.clusterStatus ≠ "Primary") ∨
  (data.primaryMembers ≠ [] ∧ ∃ ne ∈ data.effectiveSeqnos,
    ¬ ne.1 ∈ data.primaryMembers ∧ ne.2.value > (bestPrimary data).1 ∧ ne.2.value > 0)

instance (data : GaleraTriageData) : Decidable (galeraUnsafe data) := by
  unfold galeraUnsafe; infer_instance

/-! ## CNPG per-instance assessments and the repair capture loop -/

/-- common.InstanceAssessment; instanceNum stands for the Go field Instance. -/
structure InstanceAssessment where
  pod : String
  instanceNum : Int
  isRunning : Bool
  isReady : Bool
  needsHeal : Bool
  notes : List String
  recommendation : String
  isPrimary : Bool
  timeline : Int
  lsn : String
  isInPrimary : Bool
  seqno : Int
  effectiveSeqno : Int
  seqnoSource : String
  seqnoLag : Int
  uuid : String
  safeToBootstrap : String
  wsrepState : Int
  wsrepStateComment : String
  wsrepConnected : String
  wsrepReady : String
  wsrepClusterStatus : String
  crashReason : String
  diskPct : Int
  deriving Repr, DecidableEq

/-- The zero value of the Go struct: fields a composite literal omits. -/
def defaultAssessment : InstanceAssessment :=
  { pod := "", instanceNum := 0, isRunning := false, isReady := false
    needsHeal := false, notes := [], recommendation := ""
    isPrimary := false, timeline := 0, lsn := ""
    isInPrimary := false, seqno := 0, effectiveSeqno := 0, seqnoSource := ""
    seqnoLag := 0, uuid := "", safeToBootstrap := "", wsrepState := 0
    wsrepStateComment := "", wsrepConnected := "", wsrepReady := ""
    wsrepClusterStatus := "", crashReason := "", diskPct := 0 }

/-- Last "-"-separated component of a pod name (Go parts[len(parts)-1]). -/
def lastDashPart (pod : String) : String :=
  ⟨(splitOnChar (Char.ofNat 45) pod.toList).getLastD []⟩

/-- One iteration of the cnpg buildAssessments loop: the ordered rule switch.
The Go composite literal sets only Pod, IsPrimary, Timeline, LSN, Notes,
Recommendation and NeedsHeal; every other field keeps its zero value. -/
def mkAssessment (data : PGTriageData) (comparison : DataComparison)
    (primaryName clusterName namespc : String) (inst : ControlData) : InstanceAssessment :=
  let pTL := data.primaryTimeline
  let pLSN := match data.primaryControlData with
    | some cd => goTrim cd.checkpointLocation
    | none => "unknown"
  let pLSNVal := parseLSNValue pLSN
  let isPrimary := inst.pod = primaryName
  let isMissing := inst.pod ∈ data.missingInstances
  let isCrashloop := inst.pod ∈ data.crashloopPodNames
  let isStreaming := inst.pod ∈ data.streamingReplicas
  let diskFull := inst.crashReason = "disk_full"
  let diskPct := mapGetInt data.diskUsage inst.pod
  let hasData := inst.source ≠ "none"
  let instTL := goTrim inst.timeline
  let instLSN := goTrim inst.checkpointLocation
  let instLSNVal := parseLSNValue instLSN
  let sameTL := instTL = pTL ∧ instTL ≠ "unknown"
  let behindTL := instTL ≠ "unknown" ∧ pTL ≠ "unknown" ∧
    parseTimelineInt instTL < parseTimelineInt pTL
  let behindLSN := sameTL ∧ instLSNVal < pLSNVal
  let aheadLSN := sameTL ∧ instLSNVal > pLSNVal
  let aheadTL := instTL ≠ "unknown" ∧ pTL ≠ "unknown" ∧
    parseTimelineInt instTL > parseTimelineInt pTL
  let healCmd := "hasteward repair -e cnpg -c " ++ clusterName ++ " -n " ++ namespc ++
    " --instance " ++ lastDashPart inst.pod ++ " --backups-path /backups"
  let nr : List String × String × Bool :=
    if isPrimary then
      if diskFull ∨ diskPct ≥ 90 then
        (["PRIMARY - disk full/low"],
         "Primary disk is full. Expand PVC storage in the Cluster spec.", false)
      else (["PRIMARY - healthy"], "No action needed.", false)
    else if comparison.safeToHeal = false then
      if aheadTL ∨ aheadLSN then
        (["AHEAD OF PRIMARY - potential split-brain"],
         "MANUAL REVIEW REQUIRED. This instance has data ahead of the primary. " ++
           "Do NOT heal without understanding the data state. " ++
           "Consider promoting this instance or performing manual data recovery.", false)
      else if ¬ hasData then
        (["NO DATA - cannot assess during split-brain"],
         "MANUAL REVIEW REQUIRED. Cannot determine this instance state. Resolve split-brain first.",
         false)
      else
        (["behind primary but split-brain detected elsewhere"],
         "MANUAL REVIEW REQUIRED. Split-brain detected in cluster. Resolve the split-brain before healing any replicas.",
         false)
    else if ¬ hasData then
      let pvcSt := mapGetStr data.pvcStates inst.pod
      (["NO DATA - could not probe PVC", "PVC: " ++ pvcSt],
       if pvcSt = "MISSING" then "PVC is missing. Check CNPG operator logs."
       else "Could not probe PVC data. Check if pod can be scheduled and PVC can be mounted.",
       false)
    else if behindTL then
      ((["behind: timeline " ++ instTL ++ " < primary " ++ pTL]) ++
         (if diskFull then ["disk full (WAL accumulation from being stuck)"] else []),
       "Needs heal (pg_basebackup). Cannot catch up via streaming - different timeline.\n\n  " ++
         healCmd, true)
    else if sameTL ∧ behindLSN ∧ isStreaming then
      if diskPct ≥ 90 then
        (["healthy (streaming, checkpoint LSN slightly behind - normal)",
          "disk low (" ++ toString diskPct ++ "%)"],
         "Streaming OK but disk usage is high. Consider expanding PVC storage.", false)
      else
        (["healthy (streaming, checkpoint LSN slightly behind - normal)"],
         "No action needed.", false)
    else if sameTL ∧ behindLSN then
      let base := ["same timeline, behind by LSN (" ++ instLSN ++ " < " ++ pLSN ++
        "), not streaming"]
      if diskFull then
        (base ++ ["disk full (WAL accumulation from being stuck)"],
         "Needs heal. Same timeline but disk full prevents catch-up.\n\n  " ++ healCmd, true)
      else if isMissing then
        (base ++ ["no pod running"],
         "Pod missing but data is on correct timeline. " ++
           "CNPG should recreate the pod. If it does not, check cluster phase. " ++
           "May catch up via streaming if WAL is still available.", false)
      else if isCrashloop then
        (base ++ ["crash-looping"],
         "Same timeline but crash-looping. Check pod logs for root cause. " ++
           "If WAL is still available, may recover on restart. " ++
           "Otherwise needs heal.\n\n  " ++ healCmd, false)
      else
        (base,
         "Not streaming. May catch up if WAL is still available. " ++
           "Check replication slots above - if the slot has no restart_lsn, " ++
           "WAL has been discarded and a heal is needed.\n\n  " ++ healCmd, true)
    else if sameTL ∧ ¬ behindLSN then
      if isMissing then
        (["data current but no pod"],
         "Data is current. CNPG should recreate the pod. If it does not, check cluster phase.",
         false)
      else if isCrashloop then
        (["data current but crash-looping"],
         "Data is current but pod is crash-looping. Check pod logs for root cause.", false)
      else if diskPct ≥ 90 then
        (["healthy but disk low (" ++ toString diskPct ++ "%)"],
         "Healthy but disk usage is high. Consider expanding PVC storage.", false)
      else (["healthy"], "No action needed.", false)
    else
      (["timeline unknown"], "Could not determine timeline. Check instance manually.", false)
  { defaultAssessment with
      pod := inst.pod
      isPrimary := isPrimary
      timeline := parseTimelineInt instTL
      lsn := instLSN
      notes := nr.1
      recommendation := nr.2.1
      needsHeal := nr.2.2 }

/-- buildAssessments (engine/cnpg/triage.go): one assessment per controlData
entry. -/
def buildAssessments (data : PGTriageData) (comparison : DataComparison)
    (primaryName clusterName namespc : String) : List InstanceAssessment :=
  data.controlData.map (mkAssessment data comparison primaryName clusterName namespc)

/-! ## Repair orchestration (engine/cnpg/repair.go, galera repair) -/

/-- Civil (year, month, day) of an epoch day, standard civil-from-days. -/
def civilFromDay (d : Int) : Int × Int × Int :=
  let z := d + 719468
  let era := z / 146097
  let doe := z - era * 146097
  let yoe := (doe - doe / 1460 + doe / 36524 - doe / 146096) / 365
  let y := yoe + era * 400
  let doy := doe - (365 * yoe + yoe / 4 - yoe / 100)
  let mp := (5 * doy + 2) / 153
  let day := doy - (153 * mp + 2) / 5 + 1
  let m := mp + (if mp < 10 then 3 else -9)
  (y + (if m ≤ 2 then 1 else 0), m, day)

/-- Left-pad the decimal rendering of a nonnegative Int with zeros. -/
def padZeros (width : Nat) (n : Int) : String :=
  let s := toString n
  if s.length < width then
    String.mk (List.replicate (width - s.length) (Char.ofNat 48)) ++ s
  else s

/-- Go Format("20060102T150405Z") of a UTC instant: calendar date and time of
day with a literal Z. -/
def formatJobID (t : Int) : String :=
  let d := dayKey t
  let ymd := civilFromDay d
  let sod := t - 86400 * d
  padZeros 4 ymd.1 ++ padZeros 2 ymd.2.1 ++ padZeros 2 ymd.2.2 ++ "T" ++
    padZeros 2 (sod / 3600) ++ padZeros 2 (sod / 60 % 60) ++
    padZeros 2 (sod % 60) ++ "Z"

/-- The virtual filename the cnpg engine dumps to (DumpFilename). -/
def cnpgDumpFilename : String := "pgdumpall.sql"

/-- One dump capture request as handed to BackupDump: backup type, donor pod,
virtual path, extra tags, and the snapshot timestamp. -/
structure CaptureReq where
  backupType : String
  donor : String
  stdinFilename : String
  extraTags : List (String × String)
  jobTime : Int
  deriving Repr, DecidableEq

/-- Phase 2.6 of Repair (both engines have the same shape): when triage found
split-brain and escrow is enabled, request one diverged capture per
assessment that is running and ready, at path
ns/cluster/<Instance>-<dumpFile>, tagged job=<jobId>, at the job start. -/
def divergedCaptures (safeToHeal noEscrow : Bool)
    (assessments : List InstanceAssessment) (namespc clusterName dumpFile : String)
    (start : Int) : List CaptureReq :=
  if safeToHeal = false ∧ noEscrow = false then
    assessments.filterMap (fun a =>
      if ¬ a.isRunning ∨ ¬ a.isReady then none
      else some
        { backupType := "diverged"
          donor := a.pod
          stdinFilename := namespc ++ "/" ++ clusterName ++ "/" ++
            toString a.instanceNum ++ "-" ++ dumpFile
          extraTags := [("job", formatJobID start)]
          jobTime := start })
  else []

/-- Mutating actions a targeted cnpg repair can perform; healInstance's
sequence begins by fencing the target (engine/cnpg/heal.go STEP 1). -/
inductive RepairAction where
  | fence (pod : String)
  | heal (pod : String)
  deriving Repr, DecidableEq

/-- Outcome of the targeted-repair gate sequence. -/
structure RepairOutcome where
  err : Option String
  actions : List RepairAction
  skipped : List String
  healed : List String
  deriving Repr, DecidableEq

/-- repairTargeted (engine/cnpg/repair.go): the ordered safety gates before
any mutation. Target is primary: hard stop. Target not assessed: stop.
Split-brain without force: stop. Healthy target without force: skip. Missing
PVC: stop. Otherwise heal (which fences first). -/
def repairTargeted (clusterName : String) (instanceNumber : Int) (primary : String)
    (assessments : List InstanceAssessment) (safeToHeal force pvcExists : Bool) :
    RepairOutcome :=
  let targetPod := clusterName ++ "-" ++ toString instanceNumber
  if targetPod = primary then
    { err := some ("ABORT: " ++ targetPod ++
        " is the PRIMARY. Cannot heal primary. Use switchover first")
      actions := [], skipped := [], healed := [] }
  else
    match assessments.find? (fun a => a.pod = targetPod) with
    | none =>
      { err := some ("ABORT: " ++ targetPod ++
          " not found in instance assessments. Check cluster_name and instance_number")
        actions := [], skipped := [], healed := [] }
    | some ta =>
      if safeToHeal = false ∧ force = false then
        { err := some ("ABORT: Split-brain detected. Healing " ++ targetPod ++
            " may cause DATA LOSS. Re-run with --force to override")
          actions := [], skipped := [], healed := [] }
      else if ta.needsHeal = false ∧ force = false then
        { err := none, actions := [], skipped := [targetPod], healed := [] }
      else if pvcExists = false then
        { err := some ("PVC " ++ targetPod ++ " not found")
          actions := [], skipped := [], healed := [] }
      else
        { err := none
          actions := [RepairAction.fence targetPod, RepairAction.heal targetPod]
          skipped := [], healed := [targetPod] }

/-! ## Streaming dump pipeline error combination (BackupDump + ExecPipeOut)

ExecPipeOut (k8s exec pipe) runs the remote dump in a background goroutine
writing into an io.Pipe; on failure it closes the pipe with that error, so a
consumer that has not yet reached end-of-stream sees its read fail with the
producer's error, and wait() returns the producer's error once done.
BackupDump runs the archiver on the reader, then waits, then combines. -/

/-- Errors with Go %w-style wrapping; root is the original cause. -/
inductive PipeErr where
  | base (msg : String)
  | wrap (msg : String) (e : PipeErr)
  deriving Repr, DecidableEq

/-- The original cause inside a chain of wraps. -/
def PipeErr.root : PipeErr → String
  | .base m => m
  | .wrap _ e => e.root

/-- One run of the dump pipeline: the remote exec's own error (if it failed),
whether that failure happened before the archiver finished consuming the
stream, and the archiver's own error (if it failed independently). -/
structure DumpScenario where
  execErr : Option PipeErr
  execFailedFirst : Bool
  archiveSelfErr : Option PipeErr
  deriving Repr, DecidableEq

/-- The error the archive step reports: when the remote exec failed before
the stream was fully consumed, the pipe is closed with that error and the
archiver fails reading its stdin; otherwise the archiver fails only for its
own reasons. -/
def archiveErr (s : DumpScenario) : Option PipeErr :=
  match s.execErr, s.execFailedFirst with
  | some e, true => some (PipeErr.wrap "read stdin" e)
  | _, _ => s.archiveSelfErr

/-- The error-combination tail of BackupDump (both engines): after waiting
for the exec, a non-nil archive error returns first, wrapped; otherwise a
non-nil exec error returns, wrapped with the engine's dump message. -/
def backupDumpErr (dumpMsg : String) (s : DumpScenario) : Option PipeErr :=
  match archiveErr s with
  | some a => some (PipeErr.wrap "restic backup failed" a)
  | none =>
    match s.execErr with
    | some x => some (PipeErr.wrap dumpMsg x)
    | none => none

/-! ## Galera heal sequence and rescue path (galera healNode) -/

/-- Platform actions healNode performs, in trace order. -/
inductive HealAction where
  | suspend
  | scaleTo (n : Int)
  | runHelper (name : String)
  | deleteHelper (name : String)
  | deleteRecoveryPods
  | resume
  deriving Repr, DecidableEq

/-- Cluster-shape inputs of healNode. -/
structure HealEnv where
  replicas : Int
  instanceNum : Int
  hasGaleraPVC : Bool
  deriving Repr, DecidableEq

/-- Which fallible steps of healNode fail in a given run. The rescue path's
own calls ignore errors in the source and are modelled as succeeding. -/
structure HealFaults where
  failSuspend : Bool
  failScaleDown : Bool
  failStorageHelper : Bool
  failGaleraHelper : Bool
  failScaleUp : Bool
  failResume : Bool
  deriving Repr, DecidableEq

/-- Observable cluster state healNode leaves behind. -/
structure HealState where
  suspended : Bool
  replicas : Int
  deriving Repr, DecidableEq

/-- Scale strategy: partial scale to the target ordinal when it is the last
one, otherwise full scale to zero. -/
def scaleTarget (env : HealEnv) : Int :=
  if env.instanceNum = env.replicas - 1 then env.instanceNum else 0

/-- The rescue/unwind path: force-delete helper pods, restore the original
scale if a scale-down happened, resume the CR if it was suspended. -/
def rescueActions (env : HealEnv) (scaledDown suspendedFlag : Bool) : List HealAction :=
  [HealAction.deleteHelper "storage"] ++
  (if env.hasGaleraPVC then [HealAction.deleteHelper "galera"] else []) ++
  (if scaledDown then [HealAction.scaleTo env.replicas] else []) ++
  (if suspendedFlag then [HealAction.resume] else [])

/-- healNode (galera repair source): suspend → scale down → wipe grastate via
storage helper → (optionally) strip bootstrap config via galera helper →
delete recovery pods → scale back → resume; every failure after a successful
suspend runs the rescue path and surfaces the failing step's error wrapped
in the step message. Returns (error, action trace, final state). -/
def healNode (env : HealEnv) (f : HealFaults) :
    Option PipeErr × List HealAction × HealState :=
  if f.failSuspend then
    (some (PipeErr.wrap "failed to suspend CR" (PipeErr.base "suspend error")),
     [], ⟨false, env.replicas⟩)
  else
    let tr1 : List HealAction := [HealAction.suspend]
    if f.failScaleDown then
      (some (PipeErr.wrap "failed to scale StatefulSet" (PipeErr.base "scale-down error")),
       tr1 ++ rescueActions env false true, ⟨false, env.replicas⟩)
    else
      let tr2 := tr1 ++ [HealAction.scaleTo (scaleTarget env), HealAction.runHelper "storage"]
      if f.failStorageHelper then
        (some (PipeErr.wrap "storage helper failed" (PipeErr.base "storage helper error")),
         tr2 ++ rescueActions env true true, ⟨false, env.replicas⟩)
      else if env.hasGaleraPVC ∧ f.failGaleraHelper then
        (some (PipeErr.wrap "galera config helper failed" (PipeErr.base "galera helper error")),
         tr2 ++ [HealAction.runHelper "galera"] ++ rescueActions env true true,
         ⟨false, env.replicas⟩)
      else
        let tr3 := tr2 ++ (if env.hasGaleraPVC then [HealAction.runHelper "galera"] else []) ++
          [HealAction.deleteRecoveryPods]
        if f.failScaleUp then
          (some (PipeErr.wrap "failed to scale StatefulSet back up"
              (PipeErr.base "scale-up error")),
           tr3 ++ rescueActions env true true, ⟨false, env.replicas⟩)
        else
          let tr4 := tr3 ++ [HealAction.scaleTo env.replicas]
          if f.failResume then
            (some (PipeErr.wrap "failed to resume CR" (PipeErr.base "resume error")),
             tr4 ++ rescueActions env false true, ⟨false, env.replicas⟩)
          else (none, tr4 ++ [HealAction.resume], ⟨false, env.replicas⟩)

/-- The first step of healNode that fails in a run, in execution order; the
galera helper only runs when the config PVC exists. -/
def firstHealFailure (env : HealEnv) (f : HealFaults) : Option String :=
  if f.failSuspend then some "suspend error"
  else if f.failScaleDown then some "scale-down error"
  else if f.failStorageHelper then some "storage helper error"
  else if env.hasGaleraPVC ∧ f.failGaleraHelper then some "galera helper error"
  else if f.failScaleUp then some "scale-up error"
  else if f.failResume then some "resume error"
  else none

/-! ## Lemmas: grouping and retention -/

lemma groupInsert_flatMap (gs : List JobGroup) (k : String) (s : Snapshot) :
    ((groupInsert gs k s).flatMap JobGroup.snapshots).Perm
      ((gs.flatMap JobGroup.snapshots) ++ [s]) := by
  induction gs with
  | nil => simp [groupInsert]
  | cons g rest ih =>
    by_cases h : g.jobID = k
    · simp only [groupInsert, if_pos h, List.flatMap_cons, List.append_assoc]
      exact List.Perm.append_left _ List.perm_append_comm
    · simp only [groupInsert, if_neg h, List.flatMap_cons, List.append_assoc]
      exact List.Perm.append_left _ ih

lemma groupByJobRaw_flatMap (ss : List Snapshot) :
    ((groupByJobRaw ss).flatMap JobGroup.snapshots).Perm ss := by
  suffices h : ∀ (acc : List JobGroup),
      ((ss.foldl (fun gs s => groupInsert gs (jobKey s) s) acc).flatMap
        JobGroup.snapshots).Perm ((acc.flatMap JobGroup.snapshots) ++ ss) by
    simpa [groupByJobRaw] using h []
  induction ss with
  | nil => intro acc; simp
  | cons s rest ih =>
    intro acc
    refine ((ih _).trans (((groupInsert_flatMap acc (jobKey s) s).append_right rest).trans ?_))
    rw [List.append_assoc]
    exact List.Perm.refl _

lemma groupInsert_keys (gs : List JobGroup) (k : String) (s : Snapshot) :
    (groupInsert gs k s).map JobGroup.jobID =
      if k ∈ gs.map JobGroup.jobID then gs.map JobGroup.jobID
      else gs.map JobGroup.jobID ++ [k] := by
  induction gs with
  | nil => simp [groupInsert]
  | cons g rest ih =>
    by_cases h : g.jobID = k
    · simp [groupInsert, h]
    · simp only [groupInsert, if_neg h, List.map_cons, ih, List.mem_cons]
      by_cases hk : k ∈ rest.map JobGroup.jobID
      · simp [hk, Ne.symm h]
      · simp [hk, Ne.symm h]

lemma groupInsert_key_inv (gs : List JobGroup) (k : String) (s : Snapshot)
    (hinv : ∀ g ∈ gs, ∀ x ∈ g.snapshots, jobKey x = g.jobID) (hk : jobKey s = k) :
    ∀ g ∈ groupInsert gs k s, ∀ x ∈ g.snapshots, jobKey x = g.jobID := by
  induction gs with
  | nil =>
    intro g hg x hx
    simp only [groupInsert, List.mem_singleton] at hg
    subst hg
    simp only [List.mem_singleton] at hx
    subst hx; exact hk
  | cons g0 rest ih =>
    intro g hg x hx
    by_cases h : g0.jobID = k
    · simp only [groupInsert, if_pos h, List.mem_cons] at hg
      rcases hg with hg | hg
      · subst hg
        simp only [List.mem_append, List.mem_singleton] at hx
        rcases hx with hx | hx
        · exact hinv g0 (List.mem_cons_self _ _) x hx
        · subst hx; rw [hk, h]
      · exact hinv g (List.mem_cons_of_mem _ hg) x hx
    · simp only [groupInsert, if_neg h, List.mem_cons] at hg
      rcases hg with hg | hg
      · subst hg; exact hinv g (List.mem_cons_self _ _) x hx
      · exact ih (fun g1 hg1 => hinv g1 (List.mem_cons_of_mem _ hg1)) g hg x hx

lemma groupInsert_nodup (gs : List JobGroup) (k : String) (s : Snapshot)
    (h : (gs.map JobGroup.jobID).Nodup) :
    ((groupInsert gs k s).map JobGroup.jobID).Nodup := by
  rw [groupInsert_keys]
  by_cases hk : k ∈ gs.map JobGroup.jobID
  · simpa [hk]
  · simpa [hk, List.nodup_append] using h

lemma groupInsert_headTime (gs : List JobGroup) (k : String) (s : Snapshot)
    (hinv : ∀ g ∈ gs, ∃ s0 rest, g.snapshots = s0 :: rest ∧ g.time = s0.time) :
    ∀ g ∈ groupInsert gs k s, ∃ s0 rest, g.snapshots = s0 :: rest ∧ g.time = s0.time := by
  induction gs with
  | nil =>
    intro g hg
    simp only [groupInsert, List.mem_singleton] at hg
    subst hg
    exact ⟨s, [], rfl, rfl⟩
  | cons g0 rest ih =>
    intro g hg
    by_cases h : g0.jobID = k
    · simp only [groupInsert, if_pos h, List.mem_cons] at hg
      rcases hg with hg | hg
      · subst hg
        obtain ⟨s0, r0, hsn, ht⟩ := hinv g0 (List.mem_cons_self _ _)
        exact ⟨s0, r0 ++ [s], by simp [hsn], ht⟩
      · exact hinv g (List.mem_cons_of_mem _ hg)
    · simp only [groupInsert, if_neg h, List.mem_cons] at hg
      rcases hg with hg | hg
      · subst hg; exact hinv g (List.mem_cons_self _ _)
      · exact ih (fun g1 hg1 => hinv g1 (List.mem_cons_of_mem _ hg1)) g hg

lemma groupByJobRaw_props (ss : List Snapshot) :
    (∀ g ∈ groupByJobRaw ss, ∀ x ∈ g.snapshots, jobKey x = g.jobID) ∧
    ((groupByJobRaw ss).map JobGroup.jobID).Nodup ∧
    (∀ g ∈ groupByJobRaw ss, ∃ s0 rest, g.snapshots = s0 :: rest ∧ g.time = s0.time) := by
  suffices h : ∀ (acc : List JobGroup),
      (∀ g ∈ acc, ∀ x ∈ g.snapshots, jobKey x = g.jobID) →
      ((acc.map JobGroup.jobID).Nodup) →
      (∀ g ∈ acc, ∃ s0 rest, g.snapshots = s0 :: rest ∧ g.time = s0.time) →
      (∀ g ∈ ss.foldl (fun gs s => groupInsert gs (jobKey s) s) acc,
        ∀ x ∈ g.snapshots, jobKey x = g.jobID) ∧
      (((ss.foldl (fun gs s => groupInsert gs (jobKey s) s) acc).map JobGroup.jobID).Nodup) ∧
      (∀ g ∈ ss.foldl (fun gs s => groupInsert gs (jobKey s) s) acc,
        ∃ s0 rest, g.snapshots = s0 :: rest ∧ g.time = s0.time) by
    exact h [] (by simp) (by simp) (by simp)
  induction ss with
  | nil => intro acc h1 h2 h3; exact ⟨h1, h2, h3⟩
  | cons s rest ih =>
    intro acc h1 h2 h3
    exact ih (groupInsert acc (jobKey s) s)
      (groupInsert_key_inv acc _ s h1 rfl)
      (groupInsert_nodup acc _ s h2)
      (groupInsert_headTime acc _ s h3)

instance : IsTotal JobGroup (fun a b => a.time ≥ b.time) :=
  ⟨fun a b => le_total b.time a.time⟩

instance : IsTrans JobGroup (fun a b => a.time ≥ b.time) :=
  ⟨fun _ _ _ h1 h2 => le_trans h2 h1⟩

lemma sortGroupsDesc_perm (gs : List JobGroup) : (sortGroupsDesc gs).Perm gs :=
  List.perm_insertionSort _ gs

lemma sortGroupsDesc_sorted (gs : List JobGroup) :
    (sortGroupsDesc gs).Pairwise (fun a b => a.time ≥ b.time) :=
  List.sorted_insertionSort _ gs

lemma groupByJob_flatMap (ss : List Snapshot) :
    ((GroupByJob ss).flatMap JobGroup.snapshots).Perm ss := by
  unfold GroupByJob
  exact ((sortGroupsDesc_perm (groupByJobRaw ss)).flatMap_right JobGroup.snapshots).trans
    (groupByJobRaw_flatMap ss)

lemma groupByJob_key_inv (ss : List Snapshot) :
    ∀ g ∈ GroupByJob ss, ∀ x ∈ g.snapshots, jobKey x = g.jobID := by
  intro g hg
  exact (groupByJobRaw_props ss).1 g ((sortGroupsDesc_perm _).mem_iff.mp hg)

lemma groupByJob_nodup (ss : List Snapshot) :
    ((GroupByJob ss).map JobGroup.jobID).Nodup := by
  have hperm : ((GroupByJob ss).map JobGroup.jobID).Perm
      ((groupByJobRaw ss).map JobGroup.jobID) :=
    (sortGroupsDesc_perm (groupByJobRaw ss)).map JobGroup.jobID
  exact hperm.nodup_iff.mpr (groupByJobRaw_props ss).2.1

lemma groupByJob_headTime (ss : List Snapshot) :
    ∀ g ∈ GroupByJob ss, ∃ s0 rest, g.snapshots = s0 :: rest ∧ g.time = s0.time := by
  intro g hg
  exact (groupByJobRaw_props ss).2.2 g ((sortGroupsDesc_perm _).mem_iff.mp hg)

lemma applyGroupRetention_partition (groups : List JobGroup) (p : RetentionPolicy) :
    ((ApplyGroupRetention groups p).1 ++ (ApplyGroupRetention groups p).2).Perm groups := by
  unfold ApplyGroupRetention
  split_ifs with h1 h2
  · subst h1; exact List.Perm.refl _
  · simp
  · have hc : groups.filter (fun g => decide (¬ g.jobID ∈ keepSet groups p)) =
        groups.filter (fun g => ! decide (g.jobID ∈ keepSet groups p)) := by
      apply List.filter_congr
      intro x _
      simp
    simp only [hc]
    exact List.filter_append_perm _ groups

/-- C10: GroupByJob assigns each input snapshot to exactly one group, keyed
by its job tag or its ungrouped short-id key; groups come back sorted by
time newest-first, each group's time is its first-encountered member's time,
and ApplyGroupRetention's keep and remove lists together are exactly the
input groups. -/
theorem groupByJob_partition_sound :
    ∀ ss : List Snapshot,
      ((GroupByJob ss).flatMap JobGroup.snapshots).Perm ss ∧
      (∀ g ∈ GroupByJob ss, ∀ x ∈ g.snapshots, jobKey x = g.jobID) ∧
      ((GroupByJob ss).map JobGroup.jobID).Nodup ∧
      (GroupByJob ss).Pairwise (fun a b => a.time ≥ b.time) ∧
      (∀ g ∈ GroupByJob ss, ∃ s0 rest, g.snapshots = s0 :: rest ∧ g.time = s0.time) ∧
      (∀ (groups : List JobGroup) (p : RetentionPolicy),
        ((ApplyGroupRetention groups p).1 ++ (ApplyGroupRetention groups p).2).Perm groups) :=
  fun ss =>
    ⟨groupByJob_flatMap ss, groupByJob_key_inv ss, groupByJob_nodup ss,
      sortGroupsDesc_sorted _, groupByJob_headTime ss,
      applyGroupRetention_partition⟩

/-- C3: group-aware retention never splits a job group: for every snapshot
list, policy and job id, the snapshots carrying that job tag are all in the
kept output or all in the removed output. -/
theorem retention_group_atomic :
    ∀ (ss : List Snapshot) (p : RetentionPolicy) (j : String), j ≠ "" →
      (∀ s ∈ ss, tagMapGet s.tags "job" = j →
        s ∈ (ApplyGroupRetention (GroupByJob ss) p).1.flatMap JobGroup.snapshots) ∨
      (∀ s ∈ ss, tagMapGet s.tags "job" = j →
        s ∈ (ApplyGroupRetention (GroupByJob ss) p).2.flatMap JobGroup.snapshots) := by
  intro ss p j hj
  by_cases hex : ∃ s ∈ ss, tagMapGet s.tags "job" = j
  · obtain ⟨s0, hs0, htag0⟩ := hex
    have hs0g : s0 ∈ (GroupByJob ss).flatMap JobGroup.snapshots :=
      (groupByJob_flatMap ss).mem_iff.mpr hs0
    obtain ⟨g0, hg0, hs0in⟩ := List.mem_flatMap.mp hs0g
    have hg0key : g0.jobID = j := by
      have := groupByJob_key_inv ss g0 hg0 s0 hs0in
      rw [← this, jobKey, htag0, if_neg hj]
    have hmem : g0 ∈ (ApplyGroupRetention (GroupByJob ss) p).1 ++
        (ApplyGroupRetention (GroupByJob ss) p).2 :=
      (applyGroupRetention_partition (GroupByJob ss) p).mem_iff.mpr hg0
    have huniq : ∀ s ∈ ss, tagMapGet s.tags "job" = j → s ∈ g0.snapshots := by
      intro s hs htag
      have hsg : s ∈ (GroupByJob ss).flatMap JobGroup.snapshots :=
        (groupByJob_flatMap ss).mem_iff.mpr hs
      obtain ⟨g, hg, hsin⟩ := List.mem_flatMap.mp hsg
      have hgkey : g.jobID = j := by
        have := groupByJob_key_inv ss g hg s hsin
        rw [← this, jobKey, htag, if_neg hj]
      have : g = g0 :=
        List.inj_on_of_nodup_map (groupByJob_nodup ss) hg hg0 (by rw [hgkey, hg0key])
      rw [← this]; exact hsin
    rcases List.mem_append.mp hmem with hk | hr
    · left
      intro s hs htag
      exact List.mem_flatMap.mpr ⟨g0, hk, huniq s hs htag⟩
    · right
      intro s hs htag
      exact List.mem_flatMap.mpr ⟨g0, hr, huniq s hs htag⟩
  · left
    intro s hs htag
    exact absurd ⟨s, hs, htag⟩ hex

/-- Witness for retention_group_atomic at a concrete snapshot set. -/
theorem retention_group_atomic_witness :
    ("J1" : String) ≠ "" ∧
    ((∀ s ∈ [Snapshot.mk "a" "a" 5 ["job=J1"] [], Snapshot.mk "b" "b" 4 ["job=J1"] []],
        tagMapGet s.tags "job" = "J1" →
        s ∈ (ApplyGroupRetention
          (GroupByJob [Snapshot.mk "a" "a" 5 ["job=J1"] [], Snapshot.mk "b" "b" 4 ["job=J1"] []])
          ⟨1, 0, 0, 0⟩).1.flatMap JobGroup.snapshots) ∨
      (∀ s ∈ [Snapshot.mk "a" "a" 5 ["job=J1"] [], Snapshot.mk "b" "b" 4 ["job=J1"] []],
        tagMapGet s.tags "job" = "J1" →
        s ∈ (ApplyGroupRetention
          (GroupByJob [Snapshot.mk "a" "a" 5 ["job=J1"] [], Snapshot.mk "b" "b" 4 ["job=J1"] []])
          ⟨1, 0, 0, 0⟩).2.flatMap JobGroup.snapshots)) :=
  ⟨by decide, retention_group_atomic _ ⟨1, 0, 0, 0⟩ "J1" (by decide)⟩

/-! ## Lemmas: window walks, keep-set shape -/

/-- Reformulation of the lastKey-tracking walk: the groups whose key differs
from the previous group's key (runs collapse to their first element). -/
def newKeyFirsts (key : Int → Int) : Option Int → List JobGroup → List JobGroup
  | _, [] => []
  | lastKey, g :: rest =>
    if some (key g.time) ≠ lastKey then g :: newKeyFirsts key (some (key g.time)) rest
    else newKeyFirsts key lastKey rest

lemma windowWalk_eq_take (key : Int → Int) (cap : Int) :
    ∀ (groups : List JobGroup) (seen : Int) (lastKey : Option Int),
      windowWalk key cap groups seen lastKey =
        ((newKeyFirsts key lastKey groups).map JobGroup.jobID).take (cap - seen).toNat := by
  intro groups
  induction groups with
  | nil => intro seen lastKey; simp [windowWalk, newKeyFirsts]
  | cons g rest ih =>
    intro seen lastKey
    by_cases h : some (key g.time) ≠ lastKey
    · by_cases hcap : seen + 1 > cap
      · have h0 : (cap - seen).toNat = 0 := by omega
        simp [windowWalk, newKeyFirsts, h, hcap, h0]
      · have h1 : (cap - seen).toNat = (cap - (seen + 1)).toNat + 1 := by omega
        simp [windowWalk, newKeyFirsts, h, hcap, h1, ih]
    · simp [windowWalk, newKeyFirsts, h, ih]

lemma keepLastLoop_eq_take (n : Int) :
    ∀ (groups : List JobGroup) (i : Int),
      keepLastLoop n groups i = (groups.take (n - i).toNat).map JobGroup.jobID := by
  intro groups
  induction groups with
  | nil => intro i; simp [keepLastLoop]
  | cons g rest ih =>
    intro i
    by_cases h : i ≥ n
    · have h0 : (n - i).toNat = 0 := by omega
      simp [keepLastLoop, h, h0]
    · have h1 : (n - i).toNat = (n - (i + 1)).toNat + 1 := by omega
      simp [keepLastLoop, h, h1, ih]

lemma mem_take_mono {α : Type} {n m : ℕ} (h : n ≤ m) {x : α} {l : List α}
    (hx : x ∈ l.take n) : x ∈ l.take m := by
  have heq : l.take n = (l.take m).take n := by rw [List.take_take, Nat.min_eq_left h]
  rw [heq] at hx
  exact ( List.take_prefix _ _).subset hx

lemma windowMarks_mono (key : Int → Int) {c1 c2 : Int} (h : c1 ≤ c2)
    (groups : List JobGroup) {x : String} (hx : x ∈ windowMarks key c1 groups) :
    x ∈ windowMarks key c2 groups := by
  rw [windowMarks, windowWalk_eq_take] at hx ⊢
  exact mem_take_mono (by omega) hx

lemma keepLastMarks_mono {c1 c2 : Int} (h : c1 ≤ c2) (groups : List JobGroup)
    {x : String} (hx : x ∈ keepLastMarks c1 groups) : x ∈ keepLastMarks c2 groups := by
  rw [keepLastMarks, keepLastLoop_eq_take] at hx ⊢
  rw [List.map_take] at hx ⊢
  exact mem_take_mono (by omega) hx

lemma keepSet_dim_mono {c1 c2 : Int} (h : c1 ≤ c2) (marks : Int → List String)
    (hmono : ∀ x, x ∈ marks c1 → x ∈ marks c2) {x : String}
    (hx : x ∈ if c1 > 0 then marks c1 else []) : x ∈ if c2 > 0 then marks c2 else [] := by
  by_cases h1 : c1 > 0
  · rw [if_pos h1] at hx
    rw [if_pos (by omega)]
    exact hmono x hx
  · rw [if_neg h1] at hx
    exact absurd hx (List.not_mem_nil x)

lemma keepSet_mono (groups : List JobGroup) (p q : RetentionPolicy)
    (h1 : p.keepLast ≤ q.keepLast) (h2 : p.keepDaily ≤ q.keepDaily)
    (h3 : p.keepWeekly ≤ q.keepWeekly) (h4 : p.keepMonthly ≤ q.keepMonthly)
    {x : String} (hx : x ∈ keepSet groups p) : x ∈ keepSet groups q := by
  rw [keepSet, List.mem_append, List.mem_append, List.mem_append] at hx
  rw [keepSet, List.mem_append, List.mem_append, List.mem_append]
  rcases hx with ((ha | hb) | hc) | hd
  · exact Or.inl (Or.inl (Or.inl
      (keepSet_dim_mono h1 (fun c => keepLastMarks c groups)
        (fun _ => keepLastMarks_mono h1 groups) ha)))
  · exact Or.inl (Or.inl (Or.inr
      (keepSet_dim_mono h2 (fun c => windowMarks dayKey c groups)
        (fun _ => windowMarks_mono dayKey h2 groups) hb)))
  · exact Or.inl (Or.inr
      (keepSet_dim_mono h3 (fun c => windowMarks weekKey c groups)
        (fun _ => windowMarks_mono weekKey h3 groups) hc))
  · exact Or.inr
      (keepSet_dim_mono h4 (fun c => windowMarks monthKey c groups)
        (fun _ => windowMarks_mono monthKey h4 groups) hd)

/-- C4 counterexample: from the all-zero policy (which keeps everything) to
keepLast=1, the kept set shrinks, so increasing a single keep-* dimension
can shrink the kept set when starting from the all-zero policy. -/
theorem retention_monotonic_counterexample :
    (ApplyGroupRetention [⟨"A", 10, []⟩, ⟨"B", 5, []⟩] ⟨0, 0, 0, 0⟩).1 =
      [⟨"A", 10, []⟩, ⟨"B", 5, []⟩] ∧
    (ApplyGroupRetention [⟨"A", 10, []⟩, ⟨"B", 5, []⟩] ⟨1, 0, 0, 0⟩).1 = [⟨"A", 10, []⟩] ∧
    (⟨"B", 5, []⟩ : JobGroup) ∈ (ApplyGroupRetention [⟨"A", 10, []⟩, ⟨"B", 5, []⟩] ⟨0, 0, 0, 0⟩).1 ∧
    ¬ (⟨"B", 5, []⟩ : JobGroup) ∈ (ApplyGroupRetention [⟨"A", 10, []⟩, ⟨"B", 5, []⟩] ⟨1, 0, 0, 0⟩).1 := by
  refine ⟨rfl, ?_, by decide, ?_⟩ <;> decide

/-- C4 amended: as long as the starting policy is not the all-zero policy,
raising keep-* dimensions (in particular raising one and holding the other
three fixed) never removes a group from the kept output. -/
theorem retention_monotonic_amended :
    ∀ (groups : List JobGroup) (p q : RetentionPolicy),
      ¬(p.keepLast = 0 ∧ p.keepDaily = 0 ∧ p.keepWeekly = 0 ∧ p.keepMonthly = 0) →
      p.keepLast ≤ q.keepLast → p.keepDaily ≤ q.keepDaily →
      p.keepWeekly ≤ q.keepWeekly → p.keepMonthly ≤ q.keepMonthly →
      ∀ g ∈ (ApplyGroupRetention groups p).1, g ∈ (ApplyGroupRetention groups q).1 := by
  intro groups p q hnz h1 h2 h3 h4 g hg
  unfold ApplyGroupRetention at hg ⊢
  by_cases hgs : groups = []
  · rw [if_pos hgs] at hg
    exact absurd hg (List.not_mem_nil g)
  · rw [if_neg hgs] at hg ⊢
    rw [if_neg hnz] at hg
    have hm := List.mem_filter.mp hg
    by_cases hqz : q.keepLast = 0 ∧ q.keepDaily = 0 ∧ q.keepWeekly = 0 ∧ q.keepMonthly = 0
    · rw [if_pos hqz]
      exact hm.1
    · rw [if_neg hqz]
      apply List.mem_filter.mpr
      refine ⟨hm.1, ?_⟩
      have hks : g.jobID ∈ keepSet groups p := by
        have := hm.2
        simpa using this
      simpa using keepSet_mono groups p q h1 h2 h3 h4 hks

/-- Witness for retention_monotonic_amended at a concrete input. -/
theorem retention_monotonic_amended_witness :
    (⟨"A", 10, []⟩ : JobGroup) ∈
      (ApplyGroupRetention [⟨"A", 10, []⟩, ⟨"B", 5, []⟩] ⟨2, 0, 0, 0⟩).1 :=
  retention_monotonic_amended [⟨"A", 10, []⟩, ⟨"B", 5, []⟩] ⟨1, 0, 0, 0⟩ ⟨2, 0, 0, 0⟩
    (by decide) (by decide) (by decide) (by decide) (by decide) ⟨"A", 10, []⟩ (by decide)

/-! ## Lemmas: the keep-set matches the spec's description (C5) -/

/-- Spec-side walk, following the spec's words: skip groups whose window was
already seen anywhere before; keep the first group of each distinct window. -/
def distinctFirsts (key : Int → Int) : List Int → List JobGroup → List JobGroup
  | _, [] => []
  | seen, g :: rest =>
    if key g.time ∈ seen then distinctFirsts key seen rest
    else g :: distinctFirsts key (key g.time :: seen) rest

/-- Modelled from the spec (§4.3 step 4): walk groups newest-first; the
first group encountered per distinct window marks that window as seen; mark
up to cap distinct windows. -/
def specWindowMarks (key : Int → Int) (cap : Int) (groups : List JobGroup) : List String :=
  ((distinctFirsts key [] groups).take cap.toNat).map JobGroup.jobID

/-- Modelled from the spec (§4.3 step 4): keepLast marks the first keepLast
groups; daily, weekly, monthly mark the first group per distinct UTC date,
ISO year-week and calendar month, up to the respective cap. -/
def specKeepSet (groups : List JobGroup) (p : RetentionPolicy) : List String :=
  (if p.keepLast > 0 then (groups.take p.keepLast.toNat).map JobGroup.jobID else []) ++
  (if p.keepDaily > 0 then specWindowMarks dayKey p.keepDaily groups else []) ++
  (if p.keepWeekly > 0 then specWindowMarks weekKey p.keepWeekly groups else []) ++
  (if p.keepMonthly > 0 then specWindowMarks monthKey p.keepMonthly groups else [])

lemma newKeyFirsts_eq_distinctFirsts (key : Int → Int) :
    ∀ (groups : List JobGroup) (lastK : Option Int) (seen : List Int),
      List.Pairwise (fun a b => key b.time ≤ key a.time) groups →
      (∀ k, lastK = some k → ∀ g ∈ groups, key g.time ≤ k) →
      (∀ k, lastK = some k → k ∈ seen) →
      (∀ g ∈ groups, key g.time ∈ seen → lastK = some (key g.time)) →
      newKeyFirsts key lastK groups = distinctFirsts key seen groups := by
  intro groups
  induction groups with
  | nil => intro lastK seen _ _ _ _; rfl
  | cons g rest ih =>
    intro lastK seen hpw hle hmem hseen
    by_cases hk : key g.time ∈ seen
    · have hlk : lastK = some (key g.time) := hseen g (List.mem_cons_self _ _) hk
      have hcond : ¬ (some (key g.time) ≠ lastK) := by rw [hlk]; simp
      simp only [newKeyFirsts, distinctFirsts, if_pos hk, if_neg hcond]
      exact ih lastK seen hpw.of_cons
        (fun k hkk g1 hg1 => hle k hkk g1 (List.mem_cons_of_mem _ hg1))
        hmem
        (fun g1 hg1 => hseen g1 (List.mem_cons_of_mem _ hg1))
    · have hne : some (key g.time) ≠ lastK := by
        intro heq
        exact hk (hmem (key g.time) heq.symm)
      simp only [newKeyFirsts, distinctFirsts, if_neg hk, if_pos hne]
      congr 1
      apply ih (some (key g.time)) (key g.time :: seen) hpw.of_cons
      · intro k hkk g1 hg1
        have hk1 : k = key g.time := by
          injection hkk with h1
          exact h1.symm
        subst hk1
        exact List.rel_of_pairwise_cons hpw hg1
      · intro k hkk
        have hk1 : k = key g.time := by
          injection hkk with h1
          exact h1.symm
        subst hk1
        exact List.mem_cons_self _ _
      · intro g1 hg1 hg1seen
        rcases List.mem_cons.mp hg1seen with h1 | h1
        · rw [h1]
        · have hlk : lastK = some (key g1.time) := hseen g1 (List.mem_cons_of_mem _ hg1) h1
          have hgle : key g.time ≤ key g1.time :=
            hle (key g1.time) hlk g (List.mem_cons_self _ _)
          have hgge : key g1.time ≤ key g.time := List.rel_of_pairwise_cons hpw hg1
          have : lastK = some (key g.time) := by
            rw [hlk]
            congr 1
            omega
          exact absurd this.symm hne

lemma dayKey_mono : Monotone dayKey := fun _ _ h =>
  Int.ediv_le_ediv (by norm_num) h

lemma weekKey_mono : Monotone weekKey := by
  intro a b h
  exact Int.ediv_le_ediv (by norm_num) (by have := dayKey_mono h; omega)

lemma monthStartsAfter_succ (a : Int) (n : Nat) :
    monthStartsAfter a (n + 1) =
      monthStartsAfter a n + (if isMonthStart (a + 1 + n) then 1 else 0) := by
  simp [monthStartsAfter, List.range_succ, List.countP_append, List.countP_cons]

lemma monthStartsAfter_add (a : Int) (n m : Nat) :
    monthStartsAfter a (n + m) =
      monthStartsAfter a n + monthStartsAfter (a + (n : Int)) m := by
  induction m with
  | zero => simp [monthStartsAfter]
  | succ m ih =>
    rw [← Nat.add_assoc, monthStartsAfter_succ, ih, monthStartsAfter_succ]
    rw [Nat.cast_add, ← add_assoc]
    have harg : a + 1 + (n : Int) + (m : Int) = a + (n : Int) + 1 + (m : Int) := by ring
    rw [harg]
    omega

lemma monthKey_mono : Monotone monthKey := by
  intro t t2 h
  have hd : dayKey t ≤ dayKey t2 := dayKey_mono h
  unfold monthKey
  rcases le_or_lt 0 (dayKey t) with hd0 | hd0
  · have hd20 : 0 ≤ dayKey t2 := le_trans hd0 hd
    rw [if_pos hd0, if_pos hd20]
    have hsplit : (dayKey t2).toNat = (dayKey t).toNat + (dayKey t2 - dayKey t).toNat := by
      omega
    rw [hsplit, monthStartsAfter_add]
    exact_mod_cast Nat.le_add_right _ _
  · rcases le_or_lt 0 (dayKey t2) with hd20 | hd20
    · rw [if_neg (by omega), if_pos hd20]
      omega
    · rw [if_neg (by omega), if_neg (by omega)]
      have hsplit : (-(dayKey t)).toNat =
          (dayKey t2 - dayKey t).toNat + (-(dayKey t2)).toNat := by omega
      rw [hsplit, monthStartsAfter_add]
      have harg : dayKey t + ((dayKey t2 - dayKey t).toNat : Int) = dayKey t2 := by omega
      rw [harg]
      omega

lemma windowMarks_eq_spec (key : Int → Int) (hkey : Monotone key) (cap : Int)
    (groups : List JobGroup) (hs : groups.Pairwise (fun a b => a.time ≥ b.time)) :
    windowMarks key cap groups = specWindowMarks key cap groups := by
  rw [windowMarks, windowWalk_eq_take, specWindowMarks]
  rw [newKeyFirsts_eq_distinctFirsts key groups none []
    (hs.imp (fun h => hkey h))
    (fun k hk => by cases hk)
    (fun k hk => by cases hk)
    (fun g _ hg => absurd hg (List.not_mem_nil _))]
  rw [show (cap - 0 : Int) = cap from sub_zero cap, List.map_take]

lemma keepSet_eq_spec (groups : List JobGroup) (p : RetentionPolicy)
    (hs : groups.Pairwise (fun a b => a.time ≥ b.time)) :
    keepSet groups p = specKeepSet groups p := by
  rw [keepSet, specKeepSet]
  rw [keepLastMarks, keepLastLoop_eq_take]
  have h0 : (p.keepLast - 0).toNat = p.keepLast.toNat := by omega
  rw [h0]
  rw [show windowMarks dayKey p.keepDaily groups = specWindowMarks dayKey p.keepDaily groups
    from windowMarks_eq_spec dayKey dayKey_mono _ groups hs]
  rw [show windowMarks weekKey p.keepWeekly groups = specWindowMarks weekKey p.keepWeekly groups
    from windowMarks_eq_spec weekKey weekKey_mono _ groups hs]
  rw [show windowMarks monthKey p.keepMonthly groups =
      specWindowMarks monthKey p.keepMonthly groups
    from windowMarks_eq_spec monthKey monthKey_mono _ groups hs]

/-- C5: on groups ordered newest-first, the keep-set is built exactly as the
spec describes (keepLast marks the first keepLast groups; each window
dimension marks the first group per distinct UTC date / ISO year-week /
calendar month, up to its cap); the all-zero policy keeps every group and
removes none; empty input yields empty output. -/
theorem retention_keepset_as_specified :
    ∀ (groups : List JobGroup) (p : RetentionPolicy),
      groups.Pairwise (fun a b => a.time ≥ b.time) →
      keepSet groups p = specKeepSet groups p ∧
      ((p.keepLast = 0 ∧ p.keepDaily = 0 ∧ p.keepWeekly = 0 ∧ p.keepMonthly = 0) →
        ApplyGroupRetention groups p = (groups, [])) ∧
      ApplyGroupRetention ([] : List JobGroup) p = ([], []) := by
  intro groups p hs
  refine ⟨keepSet_eq_spec groups p hs, ?_, by simp [ApplyGroupRetention]⟩
  intro hz
  unfold ApplyGroupRetention
  by_cases hgs : groups = []
  · rw [if_pos hgs, hgs]
  · rw [if_neg hgs, if_pos hz]

/-- Witness for retention_keepset_as_specified at the spec's keep-daily
scenario (five groups over four UTC dates, newest first). -/
theorem retention_keepset_as_specified_witness :
    keepSet
        [⟨"A", 19726 * 86400, []⟩, ⟨"B", 19725 * 86400, []⟩, ⟨"C", 19724 * 86400, []⟩,
          ⟨"D", 19723 * 86400 + 10, []⟩, ⟨"E", 19723 * 86400, []⟩] ⟨0, 2, 0, 0⟩ =
      specKeepSet
        [⟨"A", 19726 * 86400, []⟩, ⟨"B", 19725 * 86400, []⟩, ⟨"C", 19724 * 86400, []⟩,
          ⟨"D", 19723 * 86400 + 10, []⟩, ⟨"E", 19723 * 86400, []⟩] ⟨0, 2, 0, 0⟩ :=
  (retention_keepset_as_specified
    [⟨"A", 19726 * 86400, []⟩, ⟨"B", 19725 * 86400, []⟩, ⟨"C", 19724 * 86400, []⟩,
      ⟨"D", 19723 * 86400 + 10, []⟩, ⟨"E", 19723 * 86400, []⟩] ⟨0, 2, 0, 0⟩
    (by decide)).1

/-! ## Lemmas: cross-instance comparison characterizations (C2, C6) -/

lemma pgScan_sb_mono (pname : String) (pTL : Int) (pLSN : String) :
    ∀ (insts : List ControlData) (st : PGScanState),
      ∃ tail, (pgScan pname pTL pLSN insts st).splitBrain = st.splitBrain ++ tail := by
  intro insts
  induction insts with
  | nil => intro st; exact ⟨[], by simp [pgScan]⟩
  | cons inst rest ih =>
    intro st
    by_cases c1 : inst.pod = pname ∨ inst.timeline = "unknown"
    · simpa [pgScan, c1] using ih st
    · by_cases c2 : parseTimelineInt inst.timeline > st.mostAdvancedTL
      · obtain ⟨tail, htail⟩ := ih
          { mostAdvanced := inst.pod
            mostAdvancedTL := parseTimelineInt inst.timeline
            mostAdvancedLSN := inst.checkpointLocation
            splitBrain := st.splitBrain ++
              [inst.pod ++ " has timeline " ++ inst.timeline ++
                " > primary timeline " ++ toString pTL] }
        refine ⟨[inst.pod ++ " has timeline " ++ inst.timeline ++
          " > primary timeline " ++ toString pTL] ++ tail, ?_⟩
        simp only [pgScan, if_neg c1, if_pos c2]
        rw [htail, List.append_assoc]
      · by_cases c3 : parseTimelineInt inst.timeline = st.mostAdvancedTL ∧
            inst.checkpointLocation ≠ "unknown" ∧ pLSN ≠ "unknown"
        · by_cases c4 : parseLSNValue inst.checkpointLocation > parseLSNValue pLSN
          · obtain ⟨tail, htail⟩ := ih
              { st with splitBrain := st.splitBrain ++
                  [inst.pod ++ " LSN " ++ inst.checkpointLocation ++
                    " ahead of primary " ++ pLSN ++ " on same timeline"] }
            refine ⟨[inst.pod ++ " LSN " ++ inst.checkpointLocation ++
              " ahead of primary " ++ pLSN ++ " on same timeline"] ++ tail, ?_⟩
            simp only [pgScan, if_neg c1, if_neg c2, if_pos c3, if_pos c4]
            rw [htail, List.append_assoc]
          · simpa [pgScan, c1, c2, c3, c4] using ih st
        · simpa [pgScan, c1, c2, c3] using ih st

lemma pgScan_safe_iff (pname : String) (pTL : Int) (pLSN : String) :
    ∀ (insts : List ControlData) (st : PGScanState),
      pTL ≤ st.mostAdvancedTL →
      (st.splitBrain = [] → st.mostAdvancedTL = pTL) →
      ((pgScan pname pTL pLSN insts st).splitBrain = [] ↔
        st.splitBrain = [] ∧ ∀ inst ∈ insts, ¬ pgAhead pTL pLSN pname inst) := by
  intro insts
  induction insts with
  | nil => intro st _ _; simp [pgScan]
  | cons inst rest ih =>
    intro st h1 h2
    by_cases c1 : inst.pod = pname ∨ inst.timeline = "unknown"
    · have hna : ¬ pgAhead pTL pLSN pname inst := by
        rw [pgAhead]
        rcases c1 with h | h <;> simp [h]
      simp only [pgScan, if_pos c1, List.forall_mem_cons]
      rw [ih st h1 h2]
      simp [hna]
    · push_neg at c1
      obtain ⟨hpod, htl⟩ := c1
      by_cases c2 : parseTimelineInt inst.timeline > st.mostAdvancedTL
      · have hahead : pgAhead pTL pLSN pname inst :=
          ⟨hpod, htl, Or.inl (by omega)⟩
        have hne : ¬ (pgScan pname pTL pLSN (inst :: rest) st).splitBrain = [] := by
          simp only [pgScan, if_neg (not_or.mpr ⟨hpod, htl⟩), if_pos c2]
          obtain ⟨tail, htail⟩ := pgScan_sb_mono pname pTL pLSN rest
            { mostAdvanced := inst.pod
              mostAdvancedTL := parseTimelineInt inst.timeline
              mostAdvancedLSN := inst.checkpointLocation
              splitBrain := st.splitBrain ++
                [inst.pod ++ " has timeline " ++ inst.timeline ++
                  " > primary timeline " ++ toString pTL] }
          rw [htail]
          simp
        rw [iff_false_intro hne]
        constructor
        · intro h; exact h.elim
        · rintro ⟨-, hall⟩
          exact (hall inst (List.mem_cons_self _ _)) hahead
      · by_cases c3 : parseTimelineInt inst.timeline = st.mostAdvancedTL ∧
            inst.checkpointLocation ≠ "unknown" ∧ pLSN ≠ "unknown"
        · by_cases c4 : parseLSNValue inst.checkpointLocation > parseLSNValue pLSN
          · have hne : ¬ (pgScan pname pTL pLSN (inst :: rest) st).splitBrain = [] := by
              simp only [pgScan, if_neg (not_or.mpr ⟨hpod, htl⟩), if_neg c2, if_pos c3,
                if_pos c4]
              obtain ⟨tail, htail⟩ := pgScan_sb_mono pname pTL pLSN rest
                { st with splitBrain := st.splitBrain ++
                    [inst.pod ++ " LSN " ++ inst.checkpointLocation ++
                      " ahead of primary " ++ pLSN ++ " on same timeline"] }
              rw [htail]
              simp
            rw [iff_false_intro hne]
            constructor
            · intro h; exact h.elim
            · rintro ⟨hsb, hall⟩
              have hTLp : st.mostAdvancedTL = pTL := h2 hsb
              exact (hall inst (List.mem_cons_self _ _))
                ⟨hpod, htl, Or.inr ⟨by omega, c3.2.1, c3.2.2, c4⟩⟩
          · have hstep : pgScan pname pTL pLSN (inst :: rest) st =
                pgScan pname pTL pLSN rest st := by
              simp only [pgScan, if_neg (not_or.mpr ⟨hpod, htl⟩), if_neg c2, if_pos c3,
                if_neg c4]
            rw [hstep, ih st h1 h2, List.forall_mem_cons]
            constructor
            · rintro ⟨hsb, hall⟩
              refine ⟨hsb, ?_, hall⟩
              have hTLp : st.mostAdvancedTL = pTL := h2 hsb
              rintro ⟨-, -, hor⟩
              rcases hor with hgt | ⟨heq, -, -, hlsn⟩
              · omega
              · exact c4 hlsn
            · rintro ⟨hsb, -, hall⟩
              exact ⟨hsb, hall⟩
        · have hstep : pgScan pname pTL pLSN (inst :: rest) st =
              pgScan pname pTL pLSN rest st := by
            simp only [pgScan, if_neg (not_or.mpr ⟨hpod, htl⟩), if_neg c2, if_neg c3]
          rw [hstep, ih st h1 h2, List.forall_mem_cons]
          constructor
          · rintro ⟨hsb, hall⟩
            refine ⟨hsb, ?_, hall⟩
            have hTLp : st.mostAdvancedTL = pTL := h2 hsb
            rintro ⟨-, -, hor⟩
            rcases hor with hgt | ⟨heq, hk1, hk2, -⟩
            · omega
            · exact c3 ⟨by omega, hk1, hk2⟩
          · rintro ⟨hsb, -, hall⟩
            exact ⟨hsb, hall⟩

lemma pgCross_safe_iff (data : PGTriageData) (pname : String) :
    (pgCross data pname).safeToHeal = false ↔
      ∃ inst ∈ data.controlData,
        pgAhead (pgPrimaryTL data) (pgPrimaryLSN data) pname inst := by
  have hproj : (pgCross data pname).safeToHeal =
      decide ((pgScan pname (pgPrimaryTL data) (pgPrimaryLSN data) data.controlData
        ⟨pname, pgPrimaryTL data, pgPrimaryLSN data, []⟩).splitBrain = []) := rfl
  rw [hproj, decide_eq_false_iff_not,
    pgScan_safe_iff pname (pgPrimaryTL data) (pgPrimaryLSN data) data.controlData
      ⟨pname, pgPrimaryTL data, pgPrimaryLSN data, []⟩ (le_refl _) (fun _ => rfl)]
  push_neg
  simp

lemma galeraCross_sb_nil (data : GaleraTriageData) :
    (galeraCross data).splitBrainDetails = [] ↔ ¬ galeraUnsafe data := by
  have hproj : (galeraCross data).splitBrainDetails =
      uuidFlags data ++ statusFlags data ++ seqnoFlags data := rfl
  rw [hproj, galeraUnsafe]
  push_neg
  simp only [List.append_eq_nil]
  constructor
  · rintro ⟨⟨hu, hst⟩, hsq⟩
    refine ⟨?_, ?_, ?_⟩
    · by_contra hlen
      push_neg at hlen
      rw [uuidFlags, if_pos hlen] at hu
      exact absurd hu (by simp)
    · intro nw hnw hne0
      rw [statusFlags, List.filterMap_eq_nil_iff] at hst
      have := hst nw hnw
      by_contra hnp
      rw [if_pos ⟨hne0, hnp⟩] at this
      exact absurd this (by simp)
    · intro hpm ne hne hnm hgt
      rw [seqnoFlags, if_pos hpm, List.filterMap_eq_nil_iff] at hsq
      have := hsq ne hne
      by_contra hpos
      push_neg at hpos
      rw [if_pos ⟨hnm, hgt, by omega⟩] at this
      exact absurd this (by simp)
  · rintro ⟨hu, hst, hsq⟩
    refine ⟨⟨?_, ?_⟩, ?_⟩
    · rw [uuidFlags, if_neg (by omega)]
    · rw [statusFlags, List.filterMap_eq_nil_iff]
      intro nw hnw
      rw [if_neg]
      rintro ⟨h1, h2⟩
      exact h2 (hst nw hnw h1)
    · by_cases hpm : data.primaryMembers = []
      · rw [seqnoFlags, if_neg (not_not_intro hpm)]
      · rw [seqnoFlags, if_pos hpm, List.filterMap_eq_nil_iff]
        intro ne hne
        rw [if_neg]
        rintro ⟨hnm, hgt, hpos⟩
        have := hsq hpm ne hne hnm hgt
        omega

lemma galeraCross_safe_iff (data : GaleraTriageData) :
    (galeraCross data).safeToHeal = false ↔ galeraUnsafe data := by
  have hproj : (galeraCross data).safeToHeal =
      decide ((galeraCross data).splitBrainDetails = []) := rfl
  rw [hproj, decide_eq_false_iff_not, galeraCross_sb_nil, not_not]

/-- C2 amended: safeToHeal is false iff, for Postgres, some non-primary
instance with known timeline is strictly above the primary reference
timeline or at it with both checkpoint LSN texts known and a strictly
larger LSN; and, for Galera, iff more than one distinct cluster UUID is
observed, or some node reports a non-empty wsrep cluster status other than
Primary, or (with a non-empty primary component) some non-member has a
positive effective seqno strictly above the primary component's best. -/
theorem safe_to_heal_iff_characterized :
    (∀ (data : PGTriageData) (pname : String),
      ((pgCross data pname).safeToHeal = false ↔
        ∃ inst ∈ data.controlData,
          pgAhead (pgPrimaryTL data) (pgPrimaryLSN data) pname inst)) ∧
    (∀ data : GaleraTriageData,
      ((galeraCross data).safeToHeal = false ↔ galeraUnsafe data)) :=
  ⟨pgCross_safe_iff, galeraCross_safe_iff⟩

/-- Concrete Galera run used to refute the claim's iff: one node reports
cluster status non-Primary but trails the primary component's seqno, and a
single cluster UUID family is observed. -/
def galeraStatusOnlyData : GaleraTriageData :=
  { grastateData := []
    wsrepList := [("g-2", ⟨2, "Donor", "non-Primary", "1", "OFF", "OFF", "", 0, ""⟩)]
    effectiveSeqnos := [("g-0", ⟨100, "wsrep"⟩), ("g-2", ⟨50, "grastate"⟩)]
    primaryMembers := ["g-0"]
    bestSeqnoNode := "g-0"
    bestSeqnoValue := 100 }

/-- C2 counterexample: the code reports safeToHeal=false although no
non-primary node has freshness above the primary component and no UUID
multiplicity is observed, so the claim's iff fails on this input. -/
theorem safe_to_heal_claim_counterexample :
    (galeraCross galeraStatusOnlyData).safeToHeal = false ∧
      ¬ claimGaleraUnsafe galeraStatusOnlyData := by
  constructor
  · decide
  · decide

/-- The running maximum underlying mostAdvanced: a candidate replaces the
best only when strictly larger, so the first maximal candidate wins. -/
def runningMax (best : String × Int) : List (String × Int) → String × Int
  | [] => best
  | c :: rest => if c.2 > best.2 then runningMax c rest else runningMax best rest

/-- The candidates the comparison loop actually considers: non-primary
instances with known timeline, with their parsed timeline. -/
def eligPairs (pname : String) (insts : List ControlData) : List (String × Int) :=
  insts.filterMap (fun inst =>
    if inst.pod = pname ∨ inst.timeline = "unknown" then none
    else some (inst.pod, parseTimelineInt inst.timeline))

lemma pgScan_mostAdvanced (pname : String) (pTL : Int) (pLSN : String) :
    ∀ (insts : List ControlData) (st : PGScanState),
      ((pgScan pname pTL pLSN insts st).mostAdvanced,
        (pgScan pname pTL pLSN insts st).mostAdvancedTL) =
        runningMax (st.mostAdvanced, st.mostAdvancedTL) (eligPairs pname insts) := by
  intro insts
  induction insts with
  | nil => intro st; simp [pgScan, eligPairs, runningMax]
  | cons inst rest ih =>
    intro st
    by_cases c1 : inst.pod = pname ∨ inst.timeline = "unknown"
    · simpa [pgScan, eligPairs, c1] using ih st
    · by_cases c2 : parseTimelineInt inst.timeline > st.mostAdvancedTL
      · have : eligPairs pname (inst :: rest) =
            (inst.pod, parseTimelineInt inst.timeline) :: eligPairs pname rest := by
          simp [eligPairs, c1]
        rw [this]
        simp only [pgScan, if_neg c1, if_pos c2, runningMax, if_pos c2]
        exact ih _
      · have helig : eligPairs pname (inst :: rest) =
            (inst.pod, parseTimelineInt inst.timeline) :: eligPairs pname rest := by
          simp [eligPairs, c1]
        rw [helig]
        by_cases c3 : parseTimelineInt inst.timeline = st.mostAdvancedTL ∧
            inst.checkpointLocation ≠ "unknown" ∧ pLSN ≠ "unknown"
        · by_cases c4 : parseLSNValue inst.checkpointLocation > parseLSNValue pLSN
          · simp only [pgScan, if_neg c1, if_neg c2, if_pos c3, if_pos c4, runningMax,
              if_neg c2]
            exact ih _
          · simp only [pgScan, if_neg c1, if_neg c2, if_pos c3, if_neg c4, runningMax]
            exact ih st
        · simp only [pgScan, if_neg c1, if_neg c2, if_neg c3, runningMax]
          exact ih st

lemma runningMax_ub :
    ∀ (l : List (String × Int)) (b : String × Int),
      b.2 ≤ (runningMax b l).2 ∧ ∀ c ∈ l, c.2 ≤ (runningMax b l).2 := by
  intro l
  induction l with
  | nil => intro b; exact ⟨le_refl _, by simp⟩
  | cons c rest ih =>
    intro b
    by_cases h : c.2 > b.2
    · rw [runningMax, if_pos h]
      obtain ⟨h1, h2⟩ := ih c
      exact ⟨by omega, by
        intro x hx
        rcases List.mem_cons.mp hx with hx | hx
        · rw [hx]; exact h1
        · exact h2 x hx⟩
    · rw [runningMax, if_neg h]
      obtain ⟨h1, h2⟩ := ih b
      exact ⟨h1, by
        intro x hx
        rcases List.mem_cons.mp hx with hx | hx
        · rw [hx]; omega
        · exact h2 x hx⟩

lemma runningMax_find :
    ∀ (l : List (String × Int)) (b : String × Int),
      (b :: l).find? (fun c => decide (c.2 = (runningMax b l).2)) =
        some (runningMax b l) := by
  intro l
  induction l with
  | nil =>
    intro b
    rw [runningMax]
    exact List.find?_cons_of_pos _ (by simp)
  | cons c rest ih =>
    intro b
    by_cases h : c.2 > b.2
    · rw [runningMax, if_pos h]
      have hub := (runningMax_ub rest c).1
      rw [List.find?_cons_of_neg _ (by simp; omega)]
      exact ih c
    · rw [runningMax, if_neg h]
      have hub := (runningMax_ub rest b).1
      by_cases hb : b.2 = (runningMax b rest).2
      · have hfind := ih b
        rw [List.find?_cons_of_pos _ (by simp [hb])] at hfind
        have hbr : b = runningMax b rest := by
          injection hfind with h1
        rw [List.find?_cons_of_pos _ (by simp [hb])]
        rw [← hbr]
      · rw [List.find?_cons_of_neg _ (by simp [hb])]
        have hcne : ¬ (c.2 = (runningMax b rest).2) := by omega
        rw [List.find?_cons_of_neg _ (by simp [hcne])]
        have hfind := ih b
        rw [List.find?_cons_of_neg _ (by simp [hb])] at hfind
        exact hfind

/-- The spec's split-brain scenario: primary c-1 (timeline 5, LSN 0/A0),
replica c-2 (timeline 6, LSN 0/50), replica c-3 (timeline 5, LSN 0/99). -/
def pgSplitScenario : PGTriageData :=
  { primaryControlData := some ⟨"c-1", "exec", "in production", "5", "0/A0", "t", "m", ""⟩
    primaryTimeline := "5"
    controlData :=
      [⟨"c-1", "exec", "in production", "5", "0/A0", "t", "m", ""⟩,
       ⟨"c-2", "exec", "in production", "6", "0/50", "t", "m", ""⟩,
       ⟨"c-3", "exec", "in production", "5", "0/99", "t", "m", ""⟩]
    missingInstances := [], crashloopPodNames := [], streamingReplicas := []
    diskUsage := [], pvcStates := [] }

/-- C6 amended: mostAdvanced is the first candidate (primary first, then the
non-primary instances with known timeline, in scan order) attaining the
maximal timeline; checkpoint LSNs do not influence mostAdvanced. The spec's
concrete scenario behaves as stated: safeToHeal=false, mostAdvanced=c-2,
with a split-brain reason referencing timeline 6 over 5. -/
theorem most_advanced_characterized :
    (∀ (data : PGTriageData) (pname : String),
      ((pname, pgPrimaryTL data) :: eligPairs pname data.controlData).find?
          (fun c => decide (c.2 = (pgCross data pname).mostAdvancedValue)) =
        some ((pgCross data pname).mostAdvanced, (pgCross data pname).mostAdvancedValue) ∧
      ∀ c ∈ (pname, pgPrimaryTL data) :: eligPairs pname data.controlData,
        c.2 ≤ (pgCross data pname).mostAdvancedValue) ∧
    ((pgCross pgSplitScenario "c-1").safeToHeal = false ∧
      (pgCross pgSplitScenario "c-1").mostAdvanced = "c-2" ∧
      "c-2 has timeline 6 > primary timeline 5" ∈
        (pgCross pgSplitScenario "c-1").splitBrainDetails) := by
  constructor
  · intro data pname
    have hpair := pgScan_mostAdvanced pname (pgPrimaryTL data) (pgPrimaryLSN data)
      data.controlData ⟨pname, pgPrimaryTL data, pgPrimaryLSN data, []⟩
    have hma : (pgCross data pname).mostAdvanced =
        (runningMax (pname, pgPrimaryTL data) (eligPairs pname data.controlData)).1 := by
      have := congrArg Prod.fst hpair
      exact this
    have hmv : (pgCross data pname).mostAdvancedValue =
        (runningMax (pname, pgPrimaryTL data) (eligPairs pname data.controlData)).2 := by
      have := congrArg Prod.snd hpair
      exact this
    constructor
    · rw [hma, hmv]
      exact runningMax_find (eligPairs pname data.controlData) (pname, pgPrimaryTL data)
    · intro c hc
      rw [hmv]
      rcases List.mem_cons.mp hc with hc | hc
      · rw [hc]
        exact (runningMax_ub (eligPairs pname data.controlData) (pname, pgPrimaryTL data)).1
      · exact (runningMax_ub (eligPairs pname data.controlData)
          (pname, pgPrimaryTL data)).2 c hc
  · refine ⟨by decide, by decide, by decide⟩

/-- Concrete run refuting the claim's lexicographic rule for mostAdvanced:
replica c-2 shares the primary's timeline but has a strictly larger
checkpoint LSN, so its (timeline, LSN) pair is lexicographically largest,
yet the code leaves mostAdvanced at the primary. -/
def pgLsnAheadData : PGTriageData :=
  { primaryControlData := some ⟨"c-1", "exec", "in production", "5", "0/A0", "t", "m", ""⟩
    primaryTimeline := "5"
    controlData :=
      [⟨"c-1", "exec", "in production", "5", "0/A0", "t", "m", ""⟩,
       ⟨"c-2", "exec", "in production", "5", "0/C8", "t", "m", ""⟩]
    missingInstances := [], crashloopPodNames := [], streamingReplicas := []
    diskUsage := [], pvcStates := [] }

/-- A scan order in which a timeline-7 replica precedes a timeline-6 one:
the second is ahead of the primary but shadowed by the first. -/
def pgShadowData : PGTriageData :=
  { primaryControlData := some ⟨"c-1", "exec", "in production", "5", "0/A0", "t", "m", ""⟩
    primaryTimeline := "5"
    controlData :=
      [⟨"c-1", "exec", "in production", "5", "0/A0", "t", "m", ""⟩,
       ⟨"c-2", "exec", "in production", "7", "0/50", "t", "m", ""⟩,
       ⟨"c-3", "exec", "in production", "6", "0/99", "t", "m", ""⟩]
    missingInstances := [], crashloopPodNames := [], streamingReplicas := []
    diskUsage := [], pvcStates := [] }

/-- C6 counterexample: (i) c-2 has the largest (timeline, LSN) pair under
lexicographic order (equal timeline, strictly larger LSN), but the
comparison reports mostAdvanced = c-1; (ii) in the shadowed scan, c-3 is
ahead of the primary (timeline 6 over 5) yet the only split-brain flag names
c-2, so not every ahead instance is flagged. -/
theorem most_advanced_claim_counterexample :
    (pgCross pgLsnAheadData "c-1").safeToHeal = false ∧
    (pgCross pgLsnAheadData "c-1").mostAdvanced = "c-1" ∧
    ¬ (pgCross pgLsnAheadData "c-1").mostAdvanced = "c-2" ∧
    parseTimelineInt "5" = parseTimelineInt "5" ∧
    parseLSNValue "0/C8" > parseLSNValue "0/A0" ∧
    pgAhead (pgPrimaryTL pgShadowData) (pgPrimaryLSN pgShadowData) "c-1"
      ⟨"c-3", "exec", "in production", "6", "0/99", "t", "m", ""⟩ ∧
    (pgCross pgShadowData "c-1").splitBrainDetails =
      ["c-2 has timeline 7 > primary timeline 5"] := by
  refine ⟨by decide, by decide, by decide, rfl, by decide, by decide, by decide⟩

/-! ## C7: streaming dump error combination -/

/-- C7: the dump pipeline returns exactly one error when it fails: the
archive step's error is returned (wrapped) whenever the archive step fails,
the exec error is returned only when the archive step succeeded, and when
both report errors the surfaced root cause is the archive's own failure
unless the dump exec failed first, in which case the pipe closed with the
exec error, the archive step fails reading it, and that exec error is the
surfaced root cause. -/
theorem backup_dump_single_error :
    ∀ (dumpMsg : String) (s : DumpScenario),
      ((backupDumpErr dumpMsg s).isSome ↔ (s.execErr.isSome ∨ (archiveErr s).isSome)) ∧
      (∀ a, archiveErr s = some a →
        backupDumpErr dumpMsg s = some (PipeErr.wrap "restic backup failed" a)) ∧
      (∀ x, archiveErr s = none → s.execErr = some x →
        backupDumpErr dumpMsg s = some (PipeErr.wrap dumpMsg x)) ∧
      (∀ a x, archiveErr s = some a → s.execErr = some x →
        (s.execFailedFirst = true →
          ∃ e, backupDumpErr dumpMsg s = some e ∧ e.root = x.root) ∧
        (s.execFailedFirst = false →
          ∃ e, backupDumpErr dumpMsg s = some e ∧ e.root = a.root)) := by
  intro dumpMsg s
  obtain ⟨execErr, execFirst, selfErr⟩ := s
  cases execErr <;> cases execFirst <;> cases selfErr <;>
    simp [backupDumpErr, archiveErr, PipeErr.root]

/-- Witness for backup_dump_single_error: both steps fail, exec first. -/
theorem backup_dump_single_error_witness :
    archiveErr ⟨some (PipeErr.base "exec boom"), true, none⟩ =
      some (PipeErr.wrap "read stdin" (PipeErr.base "exec boom")) ∧
    (⟨some (PipeErr.base "exec boom"), true, none⟩ : DumpScenario).execErr =
      some (PipeErr.base "exec boom") ∧
    (⟨some (PipeErr.base "exec boom"), true, none⟩ : DumpScenario).execFailedFirst = true ∧
    ∃ e, backupDumpErr "pg_dumpall exec failed" ⟨some (PipeErr.base "exec boom"), true, none⟩ =
      some e ∧ e.root = (PipeErr.base "exec boom").root :=
  ⟨rfl, rfl, rfl,
    ((backup_dump_single_error "pg_dumpall exec failed"
        ⟨some (PipeErr.base "exec boom"), true, none⟩).2.2.2
      (PipeErr.wrap "read stdin" (PipeErr.base "exec boom")) (PipeErr.base "exec boom")
      rfl rfl).1 rfl⟩

/-! ## C8: Galera heal rescue path -/

/-- Whether the failure that aborts healNode happens while the StatefulSet
is still scaled down (so the rescue path must restore the original scale). -/
def scaledDownAt (env : HealEnv) (f : HealFaults) : Bool :=
  ¬ f.failScaleDown ∧
    (f.failStorageHelper ∨ (env.hasGaleraPVC ∧ f.failGaleraHelper) ∨ f.failScaleUp)

/-- C8: healNode never exits with the CR suspended by it and always leaves
the original replica count; every handled failure after a successful
suspend ends the action trace with the rescue sequence (delete helper pods,
then restore the original scale if scaled down, then resume); an error is
returned exactly when some step fails, and the returned error's root cause
is the first failing step's error. -/
theorem heal_node_rescue_sound :
    ∀ (env : HealEnv) (f : HealFaults),
      (healNode env f).2.2 = ⟨false, env.replicas⟩ ∧
      (f.failSuspend = false → (healNode env f).1 ≠ none →
        rescueActions env (scaledDownAt env f) true <:+ (healNode env f).2.1) ∧
      ((healNode env f).1 = none ↔ firstHealFailure env f = none) ∧
      (∀ m, firstHealFailure env f = some m →
        ∃ e, (healNode env f).1 = some e ∧ e.root = m) := by
  intro env f
  obtain ⟨s, d, st, g, u, r⟩ := f
  obtain ⟨rep, inum, hg⟩ := env
  cases s <;> cases d <;> cases st <;> cases g <;> cases u <;> cases r <;> cases hg <;>
    simp [healNode, firstHealFailure, rescueActions, scaledDownAt, PipeErr.root,
      List.suffix_append, List.suffix_cons_iff]

/-- Witness for heal_node_rescue_sound: storage helper fails on a cluster
with a galera config PVC. -/
theorem heal_node_rescue_sound_witness :
    ((⟨false, false, true, false, false, false⟩ : HealFaults).failSuspend = false) ∧
    (healNode ⟨3, 2, true⟩ ⟨false, false, true, false, false, false⟩).1 ≠ none ∧
    rescueActions ⟨3, 2, true⟩
        (scaledDownAt ⟨3, 2, true⟩ ⟨false, false, true, false, false, false⟩) true <:+
      (healNode ⟨3, 2, true⟩ ⟨false, false, true, false, false, false⟩).2.1 ∧
    (∃ e, (healNode ⟨3, 2, true⟩ ⟨false, false, true, false, false, false⟩).1 = some e ∧
      e.root = "storage helper error") := by
  refine ⟨rfl, by decide, ?_, ?_⟩
  · exact (heal_node_rescue_sound ⟨3, 2, true⟩ ⟨false, false, true, false, false, false⟩).2.1
      rfl (by decide)
  · exact (heal_node_rescue_sound ⟨3, 2, true⟩ ⟨false, false, true, false, false, false⟩).2.2.2
      "storage helper error" rfl

/-! ## C9: targeted repair of the primary fails closed -/

/-- C9: when the targeted instance is the current primary, repairTargeted
hard-stops with the ABORT message naming the target as the primary, and no
action (no fence, no heal) is emitted, nothing healed or skipped. -/
theorem repair_targeted_primary_hard_stop :
    ∀ (clusterName : String) (instanceNumber : Int) (primary : String)
      (assessments : List InstanceAssessment) (safeToHeal force pvcExists : Bool),
      clusterName ++ "-" ++ toString instanceNumber = primary →
      repairTargeted clusterName instanceNumber primary assessments safeToHeal force
          pvcExists =
        { err := some ("ABORT: " ++ (clusterName ++ "-" ++ toString instanceNumber) ++
            " is the PRIMARY. Cannot heal primary. Use switchover first")
          actions := [], skipped := [], healed := [] } := by
  intro clusterName instanceNumber primary assessments safeToHeal force pvcExists h
  unfold repairTargeted
  rw [if_pos h]

/-- Witness for repair_targeted_primary_hard_stop: cluster c, instance 0,
currentPrimary c-0. -/
theorem repair_targeted_primary_hard_stop_witness :
    ("c" ++ "-" ++ toString (0 : Int) = "c-0") ∧
    repairTargeted "c" 0 "c-0" [] false false true =
      { err := some ("ABORT: " ++ ("c" ++ "-" ++ toString (0 : Int)) ++
          " is the PRIMARY. Cannot heal primary. Use switchover first")
        actions := [], skipped := [], healed := [] } :=
  ⟨by decide, repair_targeted_primary_hard_stop "c" 0 "c-0" [] false false true (by decide)⟩

/-! ## C1: diverged captures in the cnpg repair -/

/-- C1: cnpg buildAssessments never populates IsRunning, IsReady or
Instance (the composite literal omits them, leaving Go zero values), so the
diverged-capture loop of Repair skips every assessment: a cnpg repair
produces no diverged capture requests at all, whatever the triage found. -/
theorem cnpg_diverged_captures_empty :
    ∀ (data : PGTriageData) (comparison : DataComparison)
      (primaryName clusterName namespc namespc2 cluster2 : String)
      (safeToHeal noEscrow : Bool) (start : Int),
      (∀ a ∈ buildAssessments data comparison primaryName clusterName namespc,
        a.isRunning = false ∧ a.isReady = false ∧ a.instanceNum = 0) ∧
      divergedCaptures safeToHeal noEscrow
          (buildAssessments data comparison primaryName clusterName namespc)
          namespc2 cluster2 cnpgDumpFilename start = [] := by
  intro data comparison primaryName clusterName namespc namespc2 cluster2 safeToHeal
    noEscrow start
  have hfields : ∀ a ∈ buildAssessments data comparison primaryName clusterName namespc,
      a.isRunning = false ∧ a.isReady = false ∧ a.instanceNum = 0 := by
    intro a ha
    obtain ⟨inst, -, hmk⟩ := List.mem_map.mp ha
    rw [← hmk]
    unfold mkAssessment
    refine ⟨?_, ?_, ?_⟩ <;> rfl
  refine ⟨hfields, ?_⟩
  unfold divergedCaptures
  by_cases hcond : safeToHeal = false ∧ noEscrow = false
  · rw [if_pos hcond]
    rw [List.filterMap_eq_nil_iff]
    intro a ha
    rw [if_pos]
    rw [(hfields a ha).1]
    simp
  · rw [if_neg hcond]

/-! ## Closed witnesses for the remaining quantified theorems -/

/-- Witness for groupByJob_partition_sound at a concrete snapshot list. -/
theorem groupByJob_partition_sound_witness :
    ((GroupByJob [Snapshot.mk "a" "a" 5 ["job=J1"] [], Snapshot.mk "b" "b" 4 [] []]).flatMap
        JobGroup.snapshots).Perm
      [Snapshot.mk "a" "a" 5 ["job=J1"] [], Snapshot.mk "b" "b" 4 [] []] :=
  (groupByJob_partition_sound
    [Snapshot.mk "a" "a" 5 ["job=J1"] [], Snapshot.mk "b" "b" 4 [] []]).1

/-- Witness for safe_to_heal_iff_characterized at concrete inputs of both
engines. -/
theorem safe_to_heal_iff_characterized_witness :
    ((pgCross pgLsnAheadData "c-1").safeToHeal = false ↔
      ∃ inst ∈ pgLsnAheadData.controlData,
        pgAhead (pgPrimaryTL pgLsnAheadData) (pgPrimaryLSN pgLsnAheadData) "c-1" inst) ∧
    ((galeraCross galeraStatusOnlyData).safeToHeal = false ↔
      galeraUnsafe galeraStatusOnlyData) :=
  ⟨safe_to_heal_iff_characterized.1 pgLsnAheadData "c-1",
    safe_to_heal_iff_characterized.2 galeraStatusOnlyData⟩

/-- Witness for most_advanced_characterized: the find? characterization and
the upper bound, applied at the spec's scenario and a concrete candidate. -/
theorem most_advanced_characterized_witness :
    ((("c-1", pgPrimaryTL pgSplitScenario) ::
          eligPairs "c-1" pgSplitScenario.controlData).find?
        (fun c => decide (c.2 = (pgCross pgSplitScenario "c-1").mostAdvancedValue)) =
      some ((pgCross pgSplitScenario "c-1").mostAdvanced,
        (pgCross pgSplitScenario "c-1").mostAdvancedValue)) ∧
    ("c-2", parseTimelineInt "6") ∈
      (("c-1", pgPrimaryTL pgSplitScenario) ::
        eligPairs "c-1" pgSplitScenario.controlData) ∧
    parseTimelineInt "6" ≤ (pgCross pgSplitScenario "c-1").mostAdvancedValue :=
  ⟨(most_advanced_characterized.1 pgSplitScenario "c-1").1,
    by decide,
    (most_advanced_characterized.1 pgSplitScenario "c-1").2
      ("c-2", parseTimelineInt "6") (by decide)⟩

/-- Concrete cnpg triage data for the C1 witness: one primary and one
running replica on a diverged timeline. -/
def cnpgWitnessData : PGTriageData :=
  { primaryControlData := some ⟨"c-1", "exec", "in production", "5", "0/A0", "t", "m", ""⟩
    primaryTimeline := "5"
    controlData :=
      [⟨"c-1", "exec", "in production", "5", "0/A0", "t", "m", ""⟩,
       ⟨"c-2", "exec", "in production", "6", "0/50", "t", "m", ""⟩]
    missingInstances := [], crashloopPodNames := [], streamingReplicas := []
    diskUsage := [], pvcStates := [] }

/-- Witness for cnpg_diverged_captures_empty: a split-brain repair with
escrow enabled still requests zero diverged captures. -/
theorem cnpg_diverged_captures_empty_witness :
    divergedCaptures false false
        (buildAssessments cnpgWitnessData (pgCross cnpgWitnessData "c-1") "c-1" "c" "ns")
        "ns" "c" cnpgDumpFilename 1719835200 = [] :=
  (cnpg_diverged_captures_empty cnpgWitnessData (pgCross cnpgWitnessData "c-1")
    "c-1" "c" "ns" "ns" "c" false false 1719835200).2

end Hasteward
